import Mathlib

/-!
Verification development for the BDUS request-mediation engine
(`kbdus/src/inverter.c` and the control coordinator's release path in
`kbdus/src/control.c`).  The inverter's per-device slot table, its state
machine, and the producer/consumer operations are embedded shallowly: machine
integers become `Nat`/`Int` (with explicit `% 65536` where 16-bit wraparound
matters), kernel-request completion becomes an explicit `Completion` event,
and the intrusive linked lists become index lists.  The embedding follows the
release build (`KBDUS_DEBUG = 0`, the default in the Makefile).
-/

namespace Kbdus

/-- Linux errno values used by the inverter (asm-generic numbers). -/
def eio : Int := 5

/-- errno `ENODEV`. -/
def enodev : Int := 19

/-- errno `EINVAL`. -/
def einval : Int := 22

/-- errno `ENOTTY`. -/
def enotty : Int := 25

/-- errno `ENOSPC`. -/
def enospc : Int := 28

/-- errno `ENOSYS`. -/
def enosys : Int := 38

/-- errno `ENOLINK`. -/
def enolink : Int := 67

/-- errno `EOPNOTSUPP`. -/
def eopnotsupp : Int := 95

/-- errno `ETIMEDOUT`. -/
def etimedout : Int := 110

/-- Item types, mirroring `enum kbdus_item_type` in `kbdus.h` (value 0 is
`KBDUS_ITEM_TYPE_DEVICE_AVAILABLE`, which is what a zero-initialised slot
carries). -/
inductive ItemType
  | deviceAvailable
  | terminateItem
  | flushAndTerminate
  | read
  | write
  | writeSame
  | writeZerosNoUnmap
  | writeZerosMayUnmap
  | fuaWrite
  | flush
  | discard
  | secureErase
  | ioctl
deriving DecidableEq, Repr

/-- Whether an item type is one of the three pseudo-item types
(`DEVICE_AVAILABLE`, `TERMINATE`, `FLUSH_AND_TERMINATE`). -/
def ItemType.isPseudo : ItemType → Bool
  | .deviceAvailable => true
  | .terminateItem => true
  | .flushAndTerminate => true
  | _ => false

/-- Embedding of `struct kbdus_inverter_item`: handle seqnum (u64), opaque kernel request
reference (modelled as a `Nat` identifier), handle index (u16), item type. -/
structure Item where
  handle_seqnum : Nat
  req : Nat
  handle_index : Nat
  type : ItemType
deriving DecidableEq, Repr

/-- Slot states, mirroring the `KBDUS_REQ_STATE_*` enumeration. -/
inductive ReqState
  | free
  | awaitingGet
  | beingGotten
  | awaitingCompletion
  | beingCompleted
deriving DecidableEq, Repr

/-- Embedding of `struct kbdus_inverter_req_wrapper_`: an item plus its slot state. -/
structure Wrapper where
  item : Item
  state : ReqState
deriving DecidableEq, Repr

/-- Wrapper used as out-of-range default for slot-table lookups. -/
def defaultWrapper : Wrapper :=
  { item := { handle_seqnum := 0, req := 0, handle_index := 0,
              type := ItemType.deviceAvailable },
    state := ReqState.free }

/-- Embedding of `struct kbdus_inverter`: flag bits become named `Bool`s, the slot table
becomes a `List Wrapper` (indexed 0-based), and the two intrusive lists
(`reqs_free`, `reqs_awaiting_get`) become lists of slot indices in list
order (head = `list_first_entry`). -/
structure Inverter where
  terminated : Bool
  deactivated : Bool
  deactivatedNotFlushed : Bool
  sendDeviceAvailable : Bool
  supportsRead : Bool
  supportsWrite : Bool
  supportsFlush : Bool
  supportsIoctl : Bool
  numReqs : Nat
  reqsAll : List Wrapper
  reqsFree : List Nat
  reqsAwaitingGet : List Nat
deriving DecidableEq, Repr

/-- Embedding of `struct kbdus_inverter_pdu` (the parts the inverter touches): the request
handle and the two negated-errno completion status fields. -/
structure Pdu where
  handle_seqnum : Nat
  handle_index : Nat
  error : Int
  error_ioctl : Int
deriving DecidableEq, Repr

/-- A kernel-request completion event: `blk_mq_complete_request` on `req`
with the two negated-errno values recorded in the request's PDU. -/
structure Completion where
  req : Nat
  error : Int
  error_ioctl : Int
deriving DecidableEq, Repr

/-- Status delivered to the issuer of a request, as read back by `device.c`:
ioctl requests observe `pdu->error_ioctl` (see
`kbdus_device_ioctl_submit_and_await_`), every other request is ended with
`pdu->error` (see `kbdus_device_mq_ops_complete_`). -/
def deliveredStatus (t : ItemType) (c : Completion) : Int :=
  if t = ItemType.ioctl then c.error_ioctl else c.error

/-- Slot-table lookup (out-of-range reads return `defaultWrapper`). -/
def getWrapper (inv : Inverter) (i : Nat) : Wrapper :=
  inv.reqsAll.getD i defaultWrapper

/-- Slot-table update (out-of-range writes are dropped, like `List.set`). -/
def setWrapper (inv : Inverter) (i : Nat) (w : Wrapper) : Inverter :=
  { inv with reqsAll := inv.reqsAll.set i w }

/-- Relevant fields of `struct kbdus_device_config` after validation. -/
structure DeviceConfig where
  supports_read : Bool
  supports_write : Bool
  supports_flush : Bool
  supports_ioctl : Bool
  max_outstanding_reqs : Nat
deriving DecidableEq, Repr

/-- Embedding of `kbdus_inverter_create`: all flags clear, slot `i` gets handle index
`i + 1`, seqnum 0, state `FREE`, and the free list holds `0, …, n-1` in
order (`list_add_tail` appends). -/
def kbdus_inverter_create (cfg : DeviceConfig) : Inverter :=
  { terminated := false
    deactivated := false
    deactivatedNotFlushed := false
    sendDeviceAvailable := false
    supportsRead := cfg.supports_read
    supportsWrite := cfg.supports_write
    supportsFlush := cfg.supports_flush
    supportsIoctl := cfg.supports_ioctl
    numReqs := cfg.max_outstanding_reqs
    reqsAll := (List.range cfg.max_outstanding_reqs).map fun i =>
      { item := { handle_seqnum := 0, req := 0, handle_index := i + 1,
                  type := ItemType.deviceAvailable },
        state := ReqState.free }
    reqsFree := List.range cfg.max_outstanding_reqs
    reqsAwaitingGet := [] }

/-- The static `DEVICE_AVAILABLE` pseudo-item (`kbdus_inverter_req_dev_available_`). -/
def devAvailableItem : Item :=
  { handle_seqnum := 0, req := 0, handle_index := 0,
    type := ItemType.deviceAvailable }

/-- The static `TERMINATE` pseudo-item (`kbdus_inverter_req_terminate_`). -/
def terminatePseudoItem : Item :=
  { handle_seqnum := 0, req := 0, handle_index := 0,
    type := ItemType.terminateItem }

/-- The static `FLUSH_AND_TERMINATE` pseudo-item (`kbdus_inverter_req_flush_terminate_`). -/
def flushTerminatePseudoItem : Item :=
  { handle_seqnum := 0, req := 0, handle_index := 0,
    type := ItemType.flushAndTerminate }

/-- Embedding of `kbdus_inverter_handle_index_to_wrapper_`: `index -= 1` in unsigned
16-bit arithmetic, then bounds check against `num_reqs`.  Returns the
0-based slot index of the wrapper, or `none` for out of range. -/
def handleIndexToWrapper (inv : Inverter) (index : Nat) : Option Nat :=
  let idx := (index % 65536 + 65535) % 65536
  if inv.numReqs ≤ idx then none else some idx

/-- Embedding of `kbdus_inverter_req_is_supported_` in the release build
(`KBDUS_DEBUG = 0`): read, write, and ioctl are checked against the device
configuration flags; every other type takes the `default` branch and is
reported supported (it can only reach the queue if explicitly enabled). -/
def kbdus_inverter_req_is_supported (inv : Inverter) (t : ItemType) : Bool :=
  match t with
  | .read => inv.supportsRead
  | .write => inv.supportsWrite
  | .ioctl => inv.supportsIoctl
  | _ => true

/-- Embedding of `kbdus_inverter_wrapper_to_awaiting_get_`: a `FREE` wrapper is moved off
the free list to the tail of the awaiting-get list (`list_move_tail`);
otherwise (detached states) it is prepended (`list_add`).  The state becomes
`AWAITING_GET`. -/
def wrapperToAwaitingGet (inv : Inverter) (i : Nat) : Inverter :=
  let w := getWrapper inv i
  let inv1 :=
    if w.state = ReqState.free then
      { inv with reqsFree := inv.reqsFree.erase i,
                 reqsAwaitingGet := inv.reqsAwaitingGet ++ [i] }
    else
      { inv with reqsAwaitingGet := i :: inv.reqsAwaitingGet }
  setWrapper inv1 i { w with state := ReqState.awaitingGet }

/-- Embedding of `kbdus_inverter_wrapper_to_being_gotten_`: `list_del` from the
awaiting-get list, state becomes `BEING_GOTTEN`. -/
def wrapperToBeingGotten (inv : Inverter) (i : Nat) : Inverter :=
  let w := getWrapper inv i
  setWrapper { inv with reqsAwaitingGet := inv.reqsAwaitingGet.erase i } i
    { w with state := ReqState.beingGotten }

/-- Embedding of `kbdus_inverter_wrapper_to_awaiting_completion_`: state becomes
`AWAITING_COMPLETION` (the wrapper is detached and stays detached). -/
def wrapperToAwaitingCompletion (inv : Inverter) (i : Nat) : Inverter :=
  let w := getWrapper inv i
  setWrapper inv i { w with state := ReqState.awaitingCompletion }

/-- Embedding of `kbdus_inverter_wrapper_to_being_completed_`: state becomes
`BEING_COMPLETED`. -/
def wrapperToBeingCompleted (inv : Inverter) (i : Nat) : Inverter :=
  let w := getWrapper inv i
  setWrapper inv i { w with state := ReqState.beingCompleted }

/-- Embedding of `kbdus_inverter_wrapper_to_free_`: completes the kernel request with the
two negated errno values, increments the wrapper seqnum, moves the wrapper
onto the free list (removing it from the awaiting-get list first when its
state is `AWAITING_GET`; `list_move`/`list_add` both insert at the head),
and sets the state to `FREE`. -/
def wrapperToFree (inv : Inverter) (i : Nat) (negErrno negErrnoIoctl : Int) :
    Inverter × Completion :=
  let w := getWrapper inv i
  let c : Completion :=
    { req := w.item.req, error := negErrno, error_ioctl := negErrnoIoctl }
  let inv1 :=
    if w.state = ReqState.awaitingGet then
      { inv with reqsAwaitingGet := inv.reqsAwaitingGet.erase i,
                 reqsFree := i :: inv.reqsFree }
    else
      { inv with reqsFree := i :: inv.reqsFree }
  (setWrapper inv1 i
    { w with item := { w.item with handle_seqnum := w.item.handle_seqnum + 1 },
             state := ReqState.free }, c)

/-- Embedding of `kbdus_inverter_wrapper_cancel_due_to_termination_`: free the wrapper
with `-EIO` / `-ENODEV`. -/
def cancelDueToTermination (inv : Inverter) (i : Nat) : Inverter × Completion :=
  wrapperToFree inv i (-eio) (-enodev)

/-- The cancellation loop inside `kbdus_inverter_terminate`: walk the given
slot indices in order and cancel every slot in `AWAITING_GET` or
`AWAITING_COMPLETION`, collecting the emitted completions. -/
def cancelLoop : Inverter → List Nat → Inverter × List Completion
  | inv, [] => (inv, [])
  | inv, i :: rest =>
    let w := getWrapper inv i
    if w.state = ReqState.awaitingGet ∨ w.state = ReqState.awaitingCompletion
    then
      let p := cancelDueToTermination inv i
      let q := cancelLoop p.1 rest
      (q.1, p.2 :: q.2)
    else cancelLoop inv rest

/-- Embedding of `kbdus_inverter_terminate`: idempotent; on the first call sets the
`TERMINATED` flag and cancels every slot awaiting get or awaiting completion
with `-EIO` / `-ENODEV`. -/
def kbdus_inverter_terminate (inv : Inverter) : Inverter × List Completion :=
  if inv.terminated then (inv, [])
  else cancelLoop { inv with terminated := true } (List.range inv.numReqs)

/-- Embedding of `kbdus_inverter_deactivate`: if not already deactivated, sets the
`DEACTIVATED` flag, and additionally arms `DEACTIVATED_NOT_FLUSHED` when
`flush` is requested and the device supports flush. -/
def kbdus_inverter_deactivate (inv : Inverter) (flush : Bool) : Inverter :=
  if inv.deactivated then inv
  else
    let inv1 := { inv with deactivated := true }
    if flush ∧ inv.supportsFlush then
      { inv1 with deactivatedNotFlushed := true }
    else inv1

/-- The per-slot loop inside `kbdus_inverter_activate`: every slot in
`AWAITING_COMPLETION` is moved back to `AWAITING_GET` (completions of the
counting primitive are not modelled). -/
def activateLoop : Inverter → List Nat → Inverter
  | inv, [] => inv
  | inv, i :: rest =>
    let w := getWrapper inv i
    if w.state = ReqState.awaitingCompletion then
      activateLoop (wrapperToAwaitingGet inv i) rest
    else activateLoop inv rest

/-- Embedding of `kbdus_inverter_activate`: if deactivated, clears both deactivation
flags and moves every `AWAITING_COMPLETION` slot back to `AWAITING_GET`. -/
def kbdus_inverter_activate (inv : Inverter) : Inverter :=
  if inv.deactivated then
    activateLoop
      { inv with deactivated := false, deactivatedNotFlushed := false }
      (List.range inv.numReqs)
  else inv

/-- Embedding of `kbdus_inverter_submit_device_available_notification`: one-shot arm of
the `SEND_DEVICE_AVAILABLE` flag. -/
def kbdus_inverter_submit_device_available_notification (inv : Inverter) :
    Inverter :=
  if inv.sendDeviceAvailable then inv
  else { inv with sendDeviceAvailable := true }

/-- Embedding of `kbdus_inverter_submit_request`.  The kernel request is modelled by its
opaque identifier `req` together with the item type that
`kbdus_inverter_req_to_item_type_` derives from it.  Returns the updated
inverter, the PDU written for the request (handle and error fields), and
the function's return value.  `none` models the impossible case of an empty
free list (a debug assertion in the source). -/
def kbdus_inverter_submit_request (inv : Inverter) (req : Nat)
    (itemType : ItemType) : Option (Inverter × Pdu × Int) :=
  if inv.terminated then
    some (inv,
      { handle_index := 0, handle_seqnum := 0,
        error := -eio, error_ioctl := -enodev }, -eio)
  else if ¬kbdus_inverter_req_is_supported inv itemType then
    some (inv,
      { handle_index := 0, handle_seqnum := 0,
        error := -eopnotsupp, error_ioctl := -enotty }, -eopnotsupp)
  else
    match inv.reqsFree with
    | [] => none
    | i :: _ =>
      let w := getWrapper inv i
      let inv1 := setWrapper inv i
        { w with item := { w.item with type := itemType, req := req } }
      let inv2 := wrapperToAwaitingGet inv1 i
      let w2 := getWrapper inv2 i
      some (inv2,
        { handle_index := w2.item.handle_index,
          handle_seqnum := w2.item.handle_seqnum,
          error := 0, error_ioctl := 0 }, 0)

/-- Return values of the block layer's timeout callback. -/
inductive TimerReturn
  | done
  | resetTimer
deriving DecidableEq, Repr

/-- Embedding of `kbdus_inverter_timeout_request`, applied to the handle stored in the
request's PDU.  `none` models the `WARN_ON(!wrapper)` case of an invalid
stored index (the source would dereference a null pointer).  Otherwise
returns the updated inverter, the completion emitted if the slot was forced
to `FREE`, and the timer verdict. -/
def kbdus_inverter_timeout_request (inv : Inverter) (pdu : Pdu) :
    Option (Inverter × Option Completion × TimerReturn) :=
  match handleIndexToWrapper inv pdu.handle_index with
  | none => none
  | some i =>
    let w := getWrapper inv i
    if w.item.handle_seqnum ≠ pdu.handle_seqnum then
      some (inv, none, TimerReturn.done)
    else
      match w.state with
      | ReqState.beingGotten => some (inv, none, TimerReturn.resetTimer)
      | ReqState.beingCompleted => some (inv, none, TimerReturn.resetTimer)
      | ReqState.awaitingGet =>
        let p := wrapperToFree inv i (-etimedout) (-etimedout)
        some (p.1, some p.2, TimerReturn.done)
      | ReqState.awaitingCompletion =>
        let p := wrapperToFree inv i (-etimedout) (-etimedout)
        some (p.1, some p.2, TimerReturn.done)
      | ReqState.free => some (inv, none, TimerReturn.done)

/-- A reference to the item returned by `begin_get` / `begin_complete`:
either one of the three static pseudo-items, or a pointer to slot `i`'s
embedded item (`container_of` recovers the wrapper from it). -/
inductive ItemRef
  | pseudoDevAvailable
  | pseudoTerminate
  | pseudoFlushTerminate
  | slot (i : Nat)
deriving DecidableEq, Repr

/-- The item an `ItemRef` points at. -/
def refItem (inv : Inverter) : ItemRef → Item
  | ItemRef.pseudoDevAvailable => devAvailableItem
  | ItemRef.pseudoTerminate => terminatePseudoItem
  | ItemRef.pseudoFlushTerminate => flushTerminatePseudoItem
  | ItemRef.slot i => (getWrapper inv i).item

/-- Embedding of `kbdus_inverter_begin_item_get`, restricted to the decision made once
the consumer is awake and holds the slot lock: an armed
`FLUSH_AND_TERMINATE` wins, then termination / deactivation yield the
`TERMINATE` pseudo-item, then an armed `DEVICE_AVAILABLE`, then the head of
the awaiting-get list (moved to `BEING_GOTTEN`).  `none` models going back
to sleep (nothing available). -/
def kbdus_inverter_begin_item_get (inv : Inverter) :
    Inverter × Option ItemRef :=
  if inv.deactivatedNotFlushed then
    ({ inv with deactivatedNotFlushed := false },
     some ItemRef.pseudoFlushTerminate)
  else if inv.deactivated ∨ inv.terminated then
    (inv, some ItemRef.pseudoTerminate)
  else if inv.sendDeviceAvailable then
    ({ inv with sendDeviceAvailable := false },
     some ItemRef.pseudoDevAvailable)
  else
    match inv.reqsAwaitingGet with
    | [] => (inv, none)
    | i :: _ => (wrapperToBeingGotten inv i, some (ItemRef.slot i))

/-- Embedding of `kbdus_inverter_commit_item_get`: switch on the referenced item's type;
pseudo-item types are a no-op, a real slot moves to `AWAITING_COMPLETION`,
or is cancelled with `-EIO` / `-ENODEV` if the inverter terminated in the
meantime. -/
def kbdus_inverter_commit_item_get (inv : Inverter) (ref : ItemRef) :
    Inverter × Option Completion :=
  match ref with
  | ItemRef.slot i =>
    if (getWrapper inv i).item.type.isPseudo then (inv, none)
    else if inv.terminated then
      let p := cancelDueToTermination inv i
      (p.1, some p.2)
    else (wrapperToAwaitingCompletion inv i, none)
  | _ => (inv, none)

/-- Embedding of `kbdus_inverter_abort_item_get`: `DEVICE_AVAILABLE` re-arms its flag,
`TERMINATE` is a no-op, `FLUSH_AND_TERMINATE` re-arms the
`DEACTIVATED_NOT_FLUSHED` flag, and a real slot moves back to
`AWAITING_GET` (head of the list), or is cancelled if terminated. -/
def kbdus_inverter_abort_item_get (inv : Inverter) (ref : ItemRef) :
    Inverter × Option Completion :=
  match ref with
  | ItemRef.pseudoDevAvailable =>
    (kbdus_inverter_submit_device_available_notification inv, none)
  | ItemRef.pseudoTerminate => (inv, none)
  | ItemRef.pseudoFlushTerminate =>
    ({ inv with deactivatedNotFlushed := true }, none)
  | ItemRef.slot i =>
    match (getWrapper inv i).item.type with
    | ItemType.deviceAvailable =>
      (kbdus_inverter_submit_device_available_notification inv, none)
    | ItemType.terminateItem => (inv, none)
    | ItemType.flushAndTerminate =>
      ({ inv with deactivatedNotFlushed := true }, none)
    | _ =>
      if inv.terminated then
        let p := cancelDueToTermination inv i
        (p.1, some p.2)
      else (wrapperToAwaitingGet inv i, none)

/-- Result of `kbdus_inverter_begin_item_completion`: the slot's item, the
silent `NULL` drop, or `ERR_PTR(-EINVAL)`. -/
inductive BeginCompletionResult
  | item (ref : ItemRef)
  | dropped
  | invalidArg
deriving DecidableEq, Repr

/-- Embedding of `kbdus_inverter_begin_item_completion`: invalid index is `EINVAL`; a
stale seqnum is silently dropped (`NULL`); a state other than
`AWAITING_COMPLETION` is `EINVAL`; otherwise the slot moves to
`BEING_COMPLETED` and its item is returned. -/
def kbdus_inverter_begin_item_completion (inv : Inverter) (index seqnum : Nat) :
    Inverter × BeginCompletionResult :=
  match handleIndexToWrapper inv index with
  | none => (inv, BeginCompletionResult.invalidArg)
  | some i =>
    let w := getWrapper inv i
    if w.item.handle_seqnum ≠ seqnum then (inv, BeginCompletionResult.dropped)
    else if w.state ≠ ReqState.awaitingCompletion then
      (inv, BeginCompletionResult.invalidArg)
    else
      (wrapperToBeingCompleted inv i,
       BeginCompletionResult.item (ItemRef.slot i))

/-- Embedding of `kbdus_inverter_commit_item_completion` on slot `i`: on a termination
race the slot is cancelled with `-EIO` / `-ENODEV`; otherwise the non-ioctl
status is sanitised to the allow-list {0, -ENOLINK, -ENOSPC, -ETIMEDOUT},
the ioctl status (a copy of the original `neg_errno`) is sanitised to
[-133, 0] excluding `-ENOSYS`, and the slot is freed, completing the kernel
request. -/
def kbdus_inverter_commit_item_completion (inv : Inverter) (i : Nat)
    (negErrno : Int) : Inverter × Completion :=
  if inv.terminated then cancelDueToTermination inv i
  else
    let e :=
      if negErrno ≠ 0 ∧ negErrno ≠ -enolink ∧ negErrno ≠ -enospc
          ∧ negErrno ≠ -etimedout
      then -eio else negErrno
    let ei :=
      if negErrno < -133 ∨ 0 < negErrno ∨ negErrno = -enosys
      then -eio else negErrno
    wrapperToFree inv i e ei

/-- Embedding of `kbdus_inverter_abort_item_completion` on slot `i`: cancelled on a
termination race, otherwise back to `AWAITING_COMPLETION`. -/
def kbdus_inverter_abort_item_completion (inv : Inverter) (i : Nat) :
    Inverter × Option Completion :=
  if inv.terminated then
    let p := cancelDueToTermination inv i
    (p.1, some p.2)
  else (wrapperToAwaitingCompletion inv i, none)

/-- Device lifecycle states (`enum kbdus_device_state`). -/
inductive DeviceState
  | unavailable
  | active
  | inactive
  | terminatedState
deriving DecidableEq, Repr

/-- The situation `kbdus_control_release_` finds an attached fd in: the
device state, the device's `recoverable` flag, the fd's
`KBDUS_CONTROL_FD_FLAG_SUCCESSFUL_` bit, and whether a handover waiter
(`device_wrapper->on_detach`) exists. -/
structure ReleaseCtx where
  state : DeviceState
  recoverable : Bool
  successful : Bool
  hasWaiter : Bool
deriving DecidableEq, Repr

/-- The call `kbdus_control_release_` makes into the device state machine. -/
inductive DevCall
  | terminateDevice
  | deactivateDevice (flush : Bool)
deriving DecidableEq, Repr

/-- What `kbdus_control_release_` does for an attached fd: the device calls
issued (in order), whether the handover waiter is completed, and whether
`kbdus_control_destroy_device_` is invoked. -/
structure ReleaseOutcome where
  devCalls : List DevCall
  wakeWaiter : Bool
  destroy : Bool
deriving DecidableEq, Repr

/-- Embedding of `kbdus_control_release_`, attached case: the switch on the device state
in `kbdus/src/control.c`. -/
def kbdus_control_release (c : ReleaseCtx) : ReleaseOutcome :=
  match c.state with
  | DeviceState.unavailable =>
    { devCalls := [], wakeWaiter := false, destroy := true }
  | DeviceState.active =>
    let calls :=
      if ¬c.recoverable ∧ ¬c.successful then [DevCall.terminateDevice]
      else [DevCall.deactivateDevice false]
    if c.hasWaiter then
      { devCalls := calls, wakeWaiter := true, destroy := false }
    else
      { devCalls := calls, wakeWaiter := false, destroy := ¬c.recoverable }
  | DeviceState.inactive =>
    let calls :=
      if ¬c.recoverable ∧ ¬c.successful then [DevCall.terminateDevice]
      else []
    if c.hasWaiter then
      { devCalls := calls, wakeWaiter := true, destroy := false }
    else
      { devCalls := calls, wakeWaiter := false, destroy := ¬c.recoverable }
  | DeviceState.terminatedState =>
    if c.hasWaiter then
      { devCalls := [], wakeWaiter := true, destroy := false }
    else
      { devCalls := [], wakeWaiter := false, destroy := true }

/-- An inverter operation together with its arguments, for reasoning about
sequences of operations. -/
inductive Op
  | submit (req : Nat) (t : ItemType)
  | timeoutReq (pdu : Pdu)
  | terminateOp
  | deactivateOp (flush : Bool)
  | activateOp
  | deviceAvailableOp
  | beginGet
  | commitGet (ref : ItemRef)
  | abortGet (ref : ItemRef)
  | beginComplete (index : Nat) (seqnum : Nat)
  | commitComplete (i : Nat) (negErrno : Int)
  | abortComplete (i : Nat)
deriving DecidableEq, Repr

/-- The state transformation of one operation (outputs projected away). -/
def applyOp (op : Op) (inv : Inverter) : Inverter :=
  match op with
  | Op.submit req t =>
    match kbdus_inverter_submit_request inv req t with
    | some p => p.1
    | none => inv
  | Op.timeoutReq pdu =>
    match kbdus_inverter_timeout_request inv pdu with
    | some p => p.1
    | none => inv
  | Op.terminateOp => (kbdus_inverter_terminate inv).1
  | Op.deactivateOp flush => kbdus_inverter_deactivate inv flush
  | Op.activateOp => kbdus_inverter_activate inv
  | Op.deviceAvailableOp =>
    kbdus_inverter_submit_device_available_notification inv
  | Op.beginGet => (kbdus_inverter_begin_item_get inv).1
  | Op.commitGet ref => (kbdus_inverter_commit_item_get inv ref).1
  | Op.abortGet ref => (kbdus_inverter_abort_item_get inv ref).1
  | Op.beginComplete index seqnum =>
    (kbdus_inverter_begin_item_completion inv index seqnum).1
  | Op.commitComplete i negErrno =>
    (kbdus_inverter_commit_item_completion inv i negErrno).1
  | Op.abortComplete i => (kbdus_inverter_abort_item_completion inv i).1

/-- The caller-side contract of an operation, mirroring the source's debug
assertions: the two-phase commit/abort operations are only invoked on the
slot whose `begin_*` they close, so that slot is in the corresponding
`BEING_*` state. -/
def opWF (op : Op) (inv : Inverter) : Prop :=
  match op with
  | Op.commitGet (ItemRef.slot i) =>
    (getWrapper inv i).state = ReqState.beingGotten
  | Op.abortGet (ItemRef.slot i) =>
    (getWrapper inv i).state = ReqState.beingGotten
  | Op.commitComplete i _ =>
    (getWrapper inv i).state = ReqState.beingCompleted
  | Op.abortComplete i =>
    (getWrapper inv i).state = ReqState.beingCompleted
  | _ => True

instance (op : Op) (inv : Inverter) : Decidable (opWF op inv) := by
  unfold opWF
  cases op with
  | commitGet ref => cases ref <;> infer_instance
  | abortGet ref => cases ref <;> infer_instance
  | _ => infer_instance

/-- A sequence of operations each invoked under its caller-side contract. -/
inductive TraceWF : Inverter → List Op → Prop
  | nil (inv : Inverter) : TraceWF inv []
  | cons (inv : Inverter) (op : Op) (ops : List Op) :
      opWF op inv → TraceWF (applyOp op inv) ops → TraceWF inv (op :: ops)

/-- Run a sequence of operations. -/
def runOps (inv : Inverter) (ops : List Op) : Inverter :=
  ops.foldl (fun s op => applyOp op s) inv

/-- Number of steps of a trace on which slot `i` transitions into state
`FREE` (from a non-`FREE` state). -/
def countFreeTransitions (inv : Inverter) : List Op → Nat → Nat
  | [], _ => 0
  | op :: rest, i =>
    let inv1 := applyOp op inv
    (if (getWrapper inv i).state ≠ ReqState.free
        ∧ (getWrapper inv1 i).state = ReqState.free then 1 else 0)
      + countFreeTransitions inv1 rest i

/-- Iterated `begin_get`: `beginGetN inv n` is the state and result of the
`(n+1)`-st consecutive `begin_get` call starting from `inv`. -/
def beginGetN (inv : Inverter) : Nat → Inverter × Option ItemRef
  | 0 => kbdus_inverter_begin_item_get inv
  | n + 1 => kbdus_inverter_begin_item_get (beginGetN inv n).1

/-- The wrapper as left behind by `kbdus_inverter_wrapper_to_free_`: seqnum
incremented, state `FREE`. -/
def freedWrapper (w : Wrapper) : Wrapper :=
  { item := { w.item with handle_seqnum := w.item.handle_seqnum + 1 },
    state := ReqState.free }

/-- The one-step seqnum law for slot `i`: its seqnum grows by exactly one if
the step moved the slot into state `FREE`, and is unchanged otherwise. -/
def seqnumStep (a b : Inverter) (i : Nat) : Prop :=
  (getWrapper b i).item.handle_seqnum
    = (getWrapper a i).item.handle_seqnum
      + (if (getWrapper a i).state ≠ ReqState.free
            ∧ (getWrapper b i).state = ReqState.free then 1 else 0)

/-- A one-slot device configuration supporting read, write, flush and ioctl,
used for concrete executions. -/
def cfg1 : DeviceConfig :=
  { supports_read := true, supports_write := true, supports_flush := true,
    supports_ioctl := true, max_outstanding_reqs := 1 }

/-- Concrete inverter obtained by creating a one-slot device, submitting an
ioctl request (request id 7), getting it, committing the get, and beginning
its completion: slot 0 is `BEING_COMPLETED` with type `IOCTL`. -/
def cexInvC1 : Inverter :=
  runOps (kbdus_inverter_create cfg1)
    [Op.submit 7 ItemType.ioctl, Op.beginGet, Op.commitGet (ItemRef.slot 0),
     Op.beginComplete 1 0]

/-- Concrete inverter obtained by creating a one-slot flush-capable device,
deactivating it with `flush = true` (arming the flush-and-terminate
pseudo-item), and then terminating it. -/
def cexInvC3 : Inverter :=
  runOps (kbdus_inverter_create cfg1) [Op.deactivateOp true, Op.terminateOp]

/-- Concrete inverter right after submitting a read request (request id 3)
to a freshly created one-slot inverter: slot 0 is `AWAITING_GET`. -/
def invSub : Inverter :=
  runOps (kbdus_inverter_create cfg1) [Op.submit 3 ItemType.read]

/-- Concrete inverter with slot 0 in `BEING_GOTTEN` (a read request was
submitted and gotten but not yet committed). -/
def invBG : Inverter :=
  runOps (kbdus_inverter_create cfg1) [Op.submit 3 ItemType.read, Op.beginGet]

/-- Concrete inverter with slot 0 in `AWAITING_COMPLETION`. -/
def invAC : Inverter :=
  runOps (kbdus_inverter_create cfg1)
    [Op.submit 3 ItemType.read, Op.beginGet, Op.commitGet (ItemRef.slot 0)]

/-- Concrete terminated inverter (freshly created, then terminated). -/
def invTerm : Inverter :=
  runOps (kbdus_inverter_create cfg1) [Op.terminateOp]

/-- The PDU written for the request occupying slot 0 of `invBG` / `invAC`:
handle `(1, 0)`. -/
def pduSlot0 : Pdu :=
  { handle_seqnum := 0, handle_index := 1, error := 0, error_ioctl := 0 }

/-- A slot whose state is not `FREE` lies inside the slot table (the
out-of-range default wrapper is `FREE`). -/
theorem lt_length_of_state_ne_free {inv : Inverter} {i : Nat}
    (h : (getWrapper inv i).state ≠ ReqState.free) :
    i < inv.reqsAll.length := by
  by_contra hlt
  have hd : getWrapper inv i = defaultWrapper :=
    List.getD_eq_default _ _ (Nat.le_of_not_lt hlt)
  rw [hd] at h
  exact h rfl

/-- Reading back an in-range slot-table write. -/
theorem getWrapper_set_self {inv : Inverter} {i : Nat} {w : Wrapper}
    (h : i < inv.reqsAll.length) : getWrapper (setWrapper inv i w) i = w := by
  unfold getWrapper setWrapper
  simp [List.getD_eq_getElem?_getD, List.getElem?_set_eq_of_lt w h]

/-- A slot-table write leaves the other slots unchanged. -/
theorem getWrapper_set_ne {inv : Inverter} {i j : Nat} {w : Wrapper}
    (h : j ≠ i) : getWrapper (setWrapper inv i w) j = getWrapper inv j := by
  unfold getWrapper setWrapper
  simp [List.getD_eq_getElem?_getD, List.getElem?_set_ne (Ne.symm h)]

/-- An out-of-range slot-table write is dropped. -/
theorem setWrapper_oob {inv : Inverter} {i : Nat} {w : Wrapper}
    (h : inv.reqsAll.length ≤ i) : setWrapper inv i w = inv := by
  unfold setWrapper
  rw [List.set_eq_of_length_le h]

/-- The function `getWrapper` only reads the slot table, not the index lists. -/
theorem getWrapper_lists (inv : Inverter) (f g : List Nat) (j : Nat) :
    getWrapper { inv with reqsFree := f, reqsAwaitingGet := g } j
      = getWrapper inv j := rfl

/-- The function `getWrapper` only depends on the slot table. -/
theorem getWrapper_congr (a b : Inverter) (h : a.reqsAll = b.reqsAll)
    (j : Nat) : getWrapper a j = getWrapper b j := by
  unfold getWrapper
  rw [h]

/-- Full characterisation of reading after a slot-table write. -/
theorem getWrapper_set (inv : Inverter) (t j : Nat) (w : Wrapper) :
    getWrapper (setWrapper inv t w) j
      = if j = t ∧ t < inv.reqsAll.length then w else getWrapper inv j := by
  by_cases hj : j = t
  · subst hj
    by_cases hr : j < inv.reqsAll.length
    · simp [hr, getWrapper_set_self hr]
    · simp [hr, setWrapper_oob (Nat.le_of_not_lt hr)]
  · simp [hj, getWrapper_set_ne hj]

/-- Slot-level effect of `wrapperToAwaitingGet`. -/
theorem getWrapper_toAwaitingGet (inv : Inverter) (t j : Nat) :
    getWrapper (wrapperToAwaitingGet inv t) j
      = if j = t ∧ t < inv.reqsAll.length
        then { getWrapper inv t with state := ReqState.awaitingGet }
        else getWrapper inv j := by
  by_cases hs : (getWrapper inv t).state = ReqState.free <;>
    simp [wrapperToAwaitingGet, hs, getWrapper_set, getWrapper_lists]

/-- Slot-level effect of `wrapperToBeingGotten`. -/
theorem getWrapper_toBeingGotten (inv : Inverter) (t j : Nat) :
    getWrapper (wrapperToBeingGotten inv t) j
      = if j = t ∧ t < inv.reqsAll.length
        then { getWrapper inv t with state := ReqState.beingGotten }
        else getWrapper inv j := by
  simp [wrapperToBeingGotten, getWrapper_set, getWrapper_lists]

/-- Slot-level effect of `wrapperToAwaitingCompletion`. -/
theorem getWrapper_toAwaitingCompletion (inv : Inverter) (t j : Nat) :
    getWrapper (wrapperToAwaitingCompletion inv t) j
      = if j = t ∧ t < inv.reqsAll.length
        then { getWrapper inv t with state := ReqState.awaitingCompletion }
        else getWrapper inv j := by
  simp [wrapperToAwaitingCompletion, getWrapper_set]

/-- Slot-level effect of `wrapperToBeingCompleted`. -/
theorem getWrapper_toBeingCompleted (inv : Inverter) (t j : Nat) :
    getWrapper (wrapperToBeingCompleted inv t) j
      = if j = t ∧ t < inv.reqsAll.length
        then { getWrapper inv t with state := ReqState.beingCompleted }
        else getWrapper inv j := by
  simp [wrapperToBeingCompleted, getWrapper_set]

/-- Slot-level effect of `wrapperToFree` (state part). -/
theorem getWrapper_toFree (inv : Inverter) (t j : Nat) (e ei : Int) :
    getWrapper (wrapperToFree inv t e ei).1 j
      = if j = t ∧ t < inv.reqsAll.length
        then freedWrapper (getWrapper inv t)
        else getWrapper inv j := by
  by_cases hs : (getWrapper inv t).state = ReqState.awaitingGet <;>
    simp [wrapperToFree, freedWrapper, hs, getWrapper_set, getWrapper_lists]

/-- The completion emitted by `wrapperToFree`. -/
theorem wrapperToFree_completion (inv : Inverter) (t : Nat) (e ei : Int) :
    (wrapperToFree inv t e ei).2
      = { req := (getWrapper inv t).item.req, error := e, error_ioctl := ei } :=
  rfl

/-- The slot table is unaffected by updating the `terminated` flag. -/
theorem getWrapper_setTerminated (inv : Inverter) (b : Bool) (j : Nat) :
    getWrapper { inv with terminated := b } j = getWrapper inv j := rfl

/-- The slot table is unaffected by updating the `deactivated` flag. -/
theorem getWrapper_setDeactivated (inv : Inverter) (b : Bool) (j : Nat) :
    getWrapper { inv with deactivated := b } j = getWrapper inv j := rfl

/-- The slot table is unaffected by updating `deactivatedNotFlushed`. -/
theorem getWrapper_setNotFlushed (inv : Inverter) (b : Bool) (j : Nat) :
    getWrapper { inv with deactivatedNotFlushed := b } j = getWrapper inv j :=
  rfl

/-- The slot table is unaffected by updating `sendDeviceAvailable`. -/
theorem getWrapper_setSendDevAvail (inv : Inverter) (b : Bool) (j : Nat) :
    getWrapper { inv with sendDeviceAvailable := b } j = getWrapper inv j :=
  rfl

/-- Slot-level effect of the termination cancellation loop: a slot listed in
`is` that is awaiting get or awaiting completion ends up freed (seqnum
incremented, state `FREE`); every other slot is untouched. -/
theorem cancelLoop_wrapper (is : List Nat) (inv : Inverter) (j : Nat) :
    getWrapper (cancelLoop inv is).1 j
      = if j ∈ is ∧ ((getWrapper inv j).state = ReqState.awaitingGet
            ∨ (getWrapper inv j).state = ReqState.awaitingCompletion)
        then freedWrapper (getWrapper inv j)
        else getWrapper inv j := by
  induction is generalizing inv with
  | nil => simp [cancelLoop]
  | cons t rest ih =>
    by_cases hg : (getWrapper inv t).state = ReqState.awaitingGet
        ∨ (getWrapper inv t).state = ReqState.awaitingCompletion
    · have hne : (getWrapper inv t).state ≠ ReqState.free := by
        rcases hg with h | h <;> simp [h]
      have hlt : t < inv.reqsAll.length := lt_length_of_state_ne_free hne
      have hstep : ∀ k, getWrapper (cancelDueToTermination inv t).1 k
          = if k = t then freedWrapper (getWrapper inv t)
            else getWrapper inv k := by
        intro k
        rw [cancelDueToTermination, getWrapper_toFree]
        by_cases hk : k = t <;> simp [hk, hlt]
      by_cases hj : j = t
      · subst hj
        simp only [cancelLoop, hg, if_true]
        rw [ih, hstep]
        simp [hstep, freedWrapper, hg]
      · simp only [cancelLoop, hg, if_true]
        rw [ih, hstep]
        simp [hstep, hj]
    · by_cases hj : j = t
      · subst hj
        simp only [cancelLoop, hg, if_false]
        rw [ih]
        simp [hg]
      · simp only [cancelLoop, hg, if_false]
        rw [ih]
        simp [hj]

/-- Slot-level effect of the activation loop: a slot listed in `is` that is
awaiting completion moves to `AWAITING_GET`; every other slot is
untouched. -/
theorem activateLoop_wrapper (is : List Nat) (inv : Inverter) (j : Nat) :
    getWrapper (activateLoop inv is) j
      = if j ∈ is ∧ (getWrapper inv j).state = ReqState.awaitingCompletion
        then { getWrapper inv j with state := ReqState.awaitingGet }
        else getWrapper inv j := by
  induction is generalizing inv with
  | nil => simp [activateLoop]
  | cons t rest ih =>
    by_cases hg : (getWrapper inv t).state = ReqState.awaitingCompletion
    · have hne : (getWrapper inv t).state ≠ ReqState.free := by simp [hg]
      have hlt : t < inv.reqsAll.length := lt_length_of_state_ne_free hne
      have hstep : ∀ k, getWrapper (wrapperToAwaitingGet inv t) k
          = if k = t then { getWrapper inv t with state := ReqState.awaitingGet }
            else getWrapper inv k := by
        intro k
        rw [getWrapper_toAwaitingGet]
        by_cases hk : k = t <;> simp [hk, hlt]
      by_cases hj : j = t
      · subst hj
        simp only [activateLoop, hg, if_true]
        rw [ih]
        simp [hstep, hg]
      · simp only [activateLoop, hg, if_true]
        rw [ih]
        simp [hstep, hj]
    · by_cases hj : j = t
      · subst hj
        simp only [activateLoop, hg, if_false]
        rw [ih]
        simp [hg]
      · simp only [activateLoop, hg, if_false]
        rw [ih]
        simp [hj]

/-- A step that leaves slot `i` untouched satisfies the seqnum law. -/
theorem seqnumStep_eq {a b : Inverter} {i : Nat}
    (h : getWrapper b i = getWrapper a i) : seqnumStep a b i := by
  unfold seqnumStep
  rw [h]
  by_cases hs : (getWrapper a i).state = ReqState.free <;> simp [hs]

/-- A step that frees a non-free slot `i` satisfies the seqnum law. -/
theorem seqnumStep_freed {a b : Inverter} {i : Nat}
    (hne : (getWrapper a i).state ≠ ReqState.free)
    (h : getWrapper b i = freedWrapper (getWrapper a i)) : seqnumStep a b i := by
  unfold seqnumStep
  rw [h]
  simp [freedWrapper, hne]

/-- A step that keeps slot `i`'s seqnum and leaves it in a non-`FREE` state
satisfies the seqnum law. -/
theorem seqnumStep_nonfree {a b : Inverter} {i : Nat}
    (hseq : (getWrapper b i).item.handle_seqnum
      = (getWrapper a i).item.handle_seqnum)
    (hb : (getWrapper b i).state ≠ ReqState.free) : seqnumStep a b i := by
  unfold seqnumStep
  simp [hb, hseq]

/-- Transition `wrapperToAwaitingGet` obeys the seqnum law on every slot. -/
theorem seqnumStep_toAwaitingGet (inv : Inverter) (t i : Nat) :
    seqnumStep inv (wrapperToAwaitingGet inv t) i := by
  by_cases hc : i = t ∧ t < inv.reqsAll.length
  · refine seqnumStep_nonfree ?_ ?_ <;> rw [getWrapper_toAwaitingGet] <;>
      simp [hc]
  · exact seqnumStep_eq (by rw [getWrapper_toAwaitingGet]; simp [hc])

/-- Transition `wrapperToBeingGotten` obeys the seqnum law on every slot. -/
theorem seqnumStep_toBeingGotten (inv : Inverter) (t i : Nat) :
    seqnumStep inv (wrapperToBeingGotten inv t) i := by
  by_cases hc : i = t ∧ t < inv.reqsAll.length
  · refine seqnumStep_nonfree ?_ ?_ <;> rw [getWrapper_toBeingGotten] <;>
      simp [hc]
  · exact seqnumStep_eq (by rw [getWrapper_toBeingGotten]; simp [hc])

/-- Transition `wrapperToAwaitingCompletion` obeys the seqnum law on every slot. -/
theorem seqnumStep_toAwaitingCompletion (inv : Inverter) (t i : Nat) :
    seqnumStep inv (wrapperToAwaitingCompletion inv t) i := by
  by_cases hc : i = t ∧ t < inv.reqsAll.length
  · refine seqnumStep_nonfree ?_ ?_ <;> rw [getWrapper_toAwaitingCompletion] <;>
      simp [hc]
  · exact seqnumStep_eq (by rw [getWrapper_toAwaitingCompletion]; simp [hc])

/-- Transition `wrapperToBeingCompleted` obeys the seqnum law on every slot. -/
theorem seqnumStep_toBeingCompleted (inv : Inverter) (t i : Nat) :
    seqnumStep inv (wrapperToBeingCompleted inv t) i := by
  by_cases hc : i = t ∧ t < inv.reqsAll.length
  · refine seqnumStep_nonfree ?_ ?_ <;> rw [getWrapper_toBeingCompleted] <;>
      simp [hc]
  · exact seqnumStep_eq (by rw [getWrapper_toBeingCompleted]; simp [hc])

/-- Transition `wrapperToFree`, applied to a non-free slot, obeys the seqnum law on
every slot. -/
theorem seqnumStep_toFree (inv : Inverter) (t i : Nat) (e ei : Int)
    (hne : (getWrapper inv t).state ≠ ReqState.free) :
    seqnumStep inv (wrapperToFree inv t e ei).1 i := by
  have hlt : t < inv.reqsAll.length := lt_length_of_state_ne_free hne
  by_cases hc : i = t
  · subst hc
    exact seqnumStep_freed hne (by rw [getWrapper_toFree]; simp [hlt])
  · exact seqnumStep_eq (by rw [getWrapper_toFree]; simp [hc])

/-- The termination cancellation loop obeys the seqnum law on every slot. -/
theorem seqnumStep_cancelLoop (is : List Nat) (inv : Inverter) (i : Nat) :
    seqnumStep inv (cancelLoop inv is).1 i := by
  by_cases hc : i ∈ is ∧ ((getWrapper inv i).state = ReqState.awaitingGet
      ∨ (getWrapper inv i).state = ReqState.awaitingCompletion)
  · have hne : (getWrapper inv i).state ≠ ReqState.free := by
      rcases hc.2 with h | h <;> simp [h]
    exact seqnumStep_freed hne (by rw [cancelLoop_wrapper]; simp [hc])
  · exact seqnumStep_eq (by rw [cancelLoop_wrapper]; simp [hc])

/-- The activation loop obeys the seqnum law on every slot. -/
theorem seqnumStep_activateLoop (is : List Nat) (inv : Inverter) (i : Nat) :
    seqnumStep inv (activateLoop inv is) i := by
  by_cases hc : i ∈ is ∧ (getWrapper inv i).state = ReqState.awaitingCompletion
  · refine seqnumStep_nonfree ?_ ?_ <;> rw [activateLoop_wrapper] <;>
      simp [hc]
  · exact seqnumStep_eq (by rw [activateLoop_wrapper]; simp [hc])

/-- Every inverter operation, invoked under its caller-side contract, obeys
the one-step seqnum law on every slot: the seqnum grows by exactly one when
the step frees the slot, and is unchanged otherwise. -/
theorem seqnumStep_applyOp (op : Op) (inv : Inverter) (i : Nat)
    (h : opWF op inv) : seqnumStep inv (applyOp op inv) i := by
  cases op with
  | submit req t =>
    by_cases ht : inv.terminated = true
    · exact seqnumStep_eq
        (by simp [applyOp, kbdus_inverter_submit_request, ht])
    · by_cases hs : kbdus_inverter_req_is_supported inv t = true
      · cases hf : inv.reqsFree with
        | nil =>
          exact seqnumStep_eq
            (by simp [applyOp, kbdus_inverter_submit_request, ht, hs, hf])
        | cons hd tl =>
          have happ : applyOp (Op.submit req t) inv
              = wrapperToAwaitingGet
                  (setWrapper inv hd
                    { getWrapper inv hd with
                      item := { (getWrapper inv hd).item with
                                type := t, req := req } }) hd := by
            simp [applyOp, kbdus_inverter_submit_request, ht, hs, hf]
          rw [happ]
          have hlen : (setWrapper inv hd
              { getWrapper inv hd with
                item := { (getWrapper inv hd).item with
                          type := t, req := req } }).reqsAll.length
              = inv.reqsAll.length := by
            simp [setWrapper]
          by_cases hc : i = hd ∧ hd < inv.reqsAll.length
          · refine seqnumStep_nonfree ?_ ?_ <;>
              rw [getWrapper_toAwaitingGet] <;>
              simp [hlen, hc, getWrapper_set]
          · refine seqnumStep_eq ?_
            rw [getWrapper_toAwaitingGet]
            simp [hlen, hc, getWrapper_set]
      · exact seqnumStep_eq
          (by simp [applyOp, kbdus_inverter_submit_request, ht, hs])
  | timeoutReq pdu =>
    cases hw : handleIndexToWrapper inv pdu.handle_index with
    | none =>
      exact seqnumStep_eq
        (by simp [applyOp, kbdus_inverter_timeout_request, hw])
    | some tIdx =>
      by_cases hsq : (getWrapper inv tIdx).item.handle_seqnum
          = pdu.handle_seqnum
      · cases hst : (getWrapper inv tIdx).state with
        | free =>
          exact seqnumStep_eq
            (by simp [applyOp, kbdus_inverter_timeout_request, hw, hsq, hst])
        | beingGotten =>
          exact seqnumStep_eq
            (by simp [applyOp, kbdus_inverter_timeout_request, hw, hsq, hst])
        | beingCompleted =>
          exact seqnumStep_eq
            (by simp [applyOp, kbdus_inverter_timeout_request, hw, hsq, hst])
        | awaitingGet =>
          have happ : applyOp (Op.timeoutReq pdu) inv
              = (wrapperToFree inv tIdx (-etimedout) (-etimedout)).1 := by
            simp [applyOp, kbdus_inverter_timeout_request, hw, hsq, hst]
          rw [happ]
          exact seqnumStep_toFree inv tIdx i _ _ (by simp [hst])
        | awaitingCompletion =>
          have happ : applyOp (Op.timeoutReq pdu) inv
              = (wrapperToFree inv tIdx (-etimedout) (-etimedout)).1 := by
            simp [applyOp, kbdus_inverter_timeout_request, hw, hsq, hst]
          rw [happ]
          exact seqnumStep_toFree inv tIdx i _ _ (by simp [hst])
      · exact seqnumStep_eq
          (by simp [applyOp, kbdus_inverter_timeout_request, hw, hsq])
  | terminateOp =>
    by_cases ht : inv.terminated = true
    · exact seqnumStep_eq (by simp [applyOp, kbdus_inverter_terminate, ht])
    · have happ : applyOp Op.terminateOp inv
          = (cancelLoop { inv with terminated := true }
              (List.range inv.numReqs)).1 := by
        simp [applyOp, kbdus_inverter_terminate, ht]
      rw [happ]
      exact seqnumStep_cancelLoop (List.range inv.numReqs)
        { inv with terminated := true } i
  | deactivateOp flush =>
    refine seqnumStep_eq ?_
    simp only [applyOp, kbdus_inverter_deactivate]
    split_ifs <;> rfl
  | activateOp =>
    by_cases hd : inv.deactivated = true
    · have happ : applyOp Op.activateOp inv
          = activateLoop
              { inv with deactivated := false, deactivatedNotFlushed := false }
              (List.range inv.numReqs) := by
        simp [applyOp, kbdus_inverter_activate, hd]
      rw [happ]
      exact seqnumStep_activateLoop (List.range inv.numReqs)
        { inv with deactivated := false, deactivatedNotFlushed := false } i
    · exact seqnumStep_eq (by simp [applyOp, kbdus_inverter_activate, hd])
  | deviceAvailableOp =>
    refine seqnumStep_eq ?_
    simp only [applyOp, kbdus_inverter_submit_device_available_notification]
    split_ifs <;> rfl
  | beginGet =>
    by_cases h1 : inv.deactivatedNotFlushed = true
    · exact seqnumStep_eq
        (by simp [applyOp, kbdus_inverter_begin_item_get, h1,
                  getWrapper_setNotFlushed])
    · by_cases h2 : (inv.deactivated = true) ∨ (inv.terminated = true)
      · exact seqnumStep_eq
          (by simp [applyOp, kbdus_inverter_begin_item_get, h1, h2])
      · by_cases h3 : inv.sendDeviceAvailable = true
        · refine seqnumStep_eq ?_
          refine getWrapper_congr _ _ ?_ i
          simp [applyOp, kbdus_inverter_begin_item_get, h1, h2, h3]
        · cases haw : inv.reqsAwaitingGet with
          | nil =>
            exact seqnumStep_eq
              (by simp [applyOp, kbdus_inverter_begin_item_get, h1, h2, h3,
                        haw])
          | cons hd tl =>
            have happ : applyOp Op.beginGet inv
                = wrapperToBeingGotten inv hd := by
              simp [applyOp, kbdus_inverter_begin_item_get, h1, h2, h3, haw]
            rw [happ]
            exact seqnumStep_toBeingGotten inv hd i
  | commitGet ref =>
    cases ref with
    | pseudoDevAvailable =>
      exact seqnumStep_eq (by simp [applyOp, kbdus_inverter_commit_item_get])
    | pseudoTerminate =>
      exact seqnumStep_eq (by simp [applyOp, kbdus_inverter_commit_item_get])
    | pseudoFlushTerminate =>
      exact seqnumStep_eq (by simp [applyOp, kbdus_inverter_commit_item_get])
    | slot s =>
      have hbg : (getWrapper inv s).state = ReqState.beingGotten := h
      by_cases hp : (getWrapper inv s).item.type.isPseudo = true
      · exact seqnumStep_eq
          (by simp [applyOp, kbdus_inverter_commit_item_get, hp])
      · by_cases ht : inv.terminated = true
        · have happ : applyOp (Op.commitGet (ItemRef.slot s)) inv
              = (wrapperToFree inv s (-eio) (-enodev)).1 := by
            simp [applyOp, kbdus_inverter_commit_item_get,
                  cancelDueToTermination, hp, ht]
          rw [happ]
          exact seqnumStep_toFree inv s i _ _ (by simp [hbg])
        · have happ : applyOp (Op.commitGet (ItemRef.slot s)) inv
              = wrapperToAwaitingCompletion inv s := by
            simp [applyOp, kbdus_inverter_commit_item_get, hp, ht]
          rw [happ]
          exact seqnumStep_toAwaitingCompletion inv s i
  | abortGet ref =>
    cases ref with
    | pseudoDevAvailable =>
      refine seqnumStep_eq ?_
      simp only [applyOp, kbdus_inverter_abort_item_get,
        kbdus_inverter_submit_device_available_notification]
      split_ifs <;> rfl
    | pseudoTerminate =>
      exact seqnumStep_eq (by simp [applyOp, kbdus_inverter_abort_item_get])
    | pseudoFlushTerminate =>
      exact seqnumStep_eq
        (by simp [applyOp, kbdus_inverter_abort_item_get,
                  getWrapper_setNotFlushed])
    | slot s =>
      have hbg : (getWrapper inv s).state = ReqState.beingGotten := h
      cases htype : (getWrapper inv s).item.type with
      | deviceAvailable =>
        refine seqnumStep_eq ?_
        simp only [applyOp, kbdus_inverter_abort_item_get, htype,
          kbdus_inverter_submit_device_available_notification]
        split_ifs <;> rfl
      | terminateItem =>
        exact seqnumStep_eq
          (by simp [applyOp, kbdus_inverter_abort_item_get, htype])
      | flushAndTerminate =>
        exact seqnumStep_eq
          (by simp [applyOp, kbdus_inverter_abort_item_get, htype,
                    getWrapper_setNotFlushed])
      | read =>
        by_cases ht : inv.terminated = true
        · have happ : applyOp (Op.abortGet (ItemRef.slot s)) inv
              = (wrapperToFree inv s (-eio) (-enodev)).1 := by
            simp [applyOp, kbdus_inverter_abort_item_get,
                  cancelDueToTermination, htype, ht]
          rw [happ]
          exact seqnumStep_toFree inv s i _ _ (by simp [hbg])
        · have happ : applyOp (Op.abortGet (ItemRef.slot s)) inv
              = wrapperToAwaitingGet inv s := by
            simp [applyOp, kbdus_inverter_abort_item_get, htype, ht]
          rw [happ]
          exact seqnumStep_toAwaitingGet inv s i
      | write =>
        by_cases ht : inv.terminated = true
        · have happ : applyOp (Op.abortGet (ItemRef.slot s)) inv
              = (wrapperToFree inv s (-eio) (-enodev)).1 := by
            simp [applyOp, kbdus_inverter_abort_item_get,
                  cancelDueToTermination, htype, ht]
          rw [happ]
          exact seqnumStep_toFree inv s i _ _ (by simp [hbg])
        · have happ : applyOp (Op.abortGet (ItemRef.slot s)) inv
              = wrapperToAwaitingGet inv s := by
            simp [applyOp, kbdus_inverter_abort_item_get, htype, ht]
          rw [happ]
          exact seqnumStep_toAwaitingGet inv s i
      | writeSame =>
        by_cases ht : inv.terminated = true
        · have happ : applyOp (Op.abortGet (ItemRef.slot s)) inv
              = (wrapperToFree inv s (-eio) (-enodev)).1 := by
            simp [applyOp, kbdus_inverter_abort_item_get,
                  cancelDueToTermination, htype, ht]
          rw [happ]
          exact seqnumStep_toFree inv s i _ _ (by simp [hbg])
        · have happ : applyOp (Op.abortGet (ItemRef.slot s)) inv
              = wrapperToAwaitingGet inv s := by
            simp [applyOp, kbdus_inverter_abort_item_get, htype, ht]
          rw [happ]
          exact seqnumStep_toAwaitingGet inv s i
      | writeZerosNoUnmap =>
        by_cases ht : inv.terminated = true
        · have happ : applyOp (Op.abortGet (ItemRef.slot s)) inv
              = (wrapperToFree inv s (-eio) (-enodev)).1 := by
            simp [applyOp, kbdus_inverter_abort_item_get,
                  cancelDueToTermination, htype, ht]
          rw [happ]
          exact seqnumStep_toFree inv s i _ _ (by simp [hbg])
        · have happ : applyOp (Op.abortGet (ItemRef.slot s)) inv
              = wrapperToAwaitingGet inv s := by
            simp [applyOp, kbdus_inverter_abort_item_get, htype, ht]
          rw [happ]
          exact seqnumStep_toAwaitingGet inv s i
      | writeZerosMayUnmap =>
        by_cases ht : inv.terminated = true
        · have happ : applyOp (Op.abortGet (ItemRef.slot s)) inv
              = (wrapperToFree inv s (-eio) (-enodev)).1 := by
            simp [applyOp, kbdus_inverter_abort_item_get,
                  cancelDueToTermination, htype, ht]
          rw [happ]
          exact seqnumStep_toFree inv s i _ _ (by simp [hbg])
        · have happ : applyOp (Op.abortGet (ItemRef.slot s)) inv
              = wrapperToAwaitingGet inv s := by
            simp [applyOp, kbdus_inverter_abort_item_get, htype, ht]
          rw [happ]
          exact seqnumStep_toAwaitingGet inv s i
      | fuaWrite =>
        by_cases ht : inv.terminated = true
        · have happ : applyOp (Op.abortGet (ItemRef.slot s)) inv
              = (wrapperToFree inv s (-eio) (-enodev)).1 := by
            simp [applyOp, kbdus_inverter_abort_item_get,
                  cancelDueToTermination, htype, ht]
          rw [happ]
          exact seqnumStep_toFree inv s i _ _ (by simp [hbg])
        · have happ : applyOp (Op.abortGet (ItemRef.slot s)) inv
              = wrapperToAwaitingGet inv s := by
            simp [applyOp, kbdus_inverter_abort_item_get, htype, ht]
          rw [happ]
          exact seqnumStep_toAwaitingGet inv s i
      | flush =>
        by_cases ht : inv.terminated = true
        · have happ : applyOp (Op.abortGet (ItemRef.slot s)) inv
              = (wrapperToFree inv s (-eio) (-enodev)).1 := by
            simp [applyOp, kbdus_inverter_abort_item_get,
                  cancelDueToTermination, htype, ht]
          rw [happ]
          exact seqnumStep_toFree inv s i _ _ (by simp [hbg])
        · have happ : applyOp (Op.abortGet (ItemRef.slot s)) inv
              = wrapperToAwaitingGet inv s := by
            simp [applyOp, kbdus_inverter_abort_item_get, htype, ht]
          rw [happ]
          exact seqnumStep_toAwaitingGet inv s i
      | discard =>
        by_cases ht : inv.terminated = true
        · have happ : applyOp (Op.abortGet (ItemRef.slot s)) inv
              = (wrapperToFree inv s (-eio) (-enodev)).1 := by
            simp [applyOp, kbdus_inverter_abort_item_get,
                  cancelDueToTermination, htype, ht]
          rw [happ]
          exact seqnumStep_toFree inv s i _ _ (by simp [hbg])
        · have happ : applyOp (Op.abortGet (ItemRef.slot s)) inv
              = wrapperToAwaitingGet inv s := by
            simp [applyOp, kbdus_inverter_abort_item_get, htype, ht]
          rw [happ]
          exact seqnumStep_toAwaitingGet inv s i
      | secureErase =>
        by_cases ht : inv.terminated = true
        · have happ : applyOp (Op.abortGet (ItemRef.slot s)) inv
              = (wrapperToFree inv s (-eio) (-enodev)).1 := by
            simp [applyOp, kbdus_inverter_abort_item_get,
                  cancelDueToTermination, htype, ht]
          rw [happ]
          exact seqnumStep_toFree inv s i _ _ (by simp [hbg])
        · have happ : applyOp (Op.abortGet (ItemRef.slot s)) inv
              = wrapperToAwaitingGet inv s := by
            simp [applyOp, kbdus_inverter_abort_item_get, htype, ht]
          rw [happ]
          exact seqnumStep_toAwaitingGet inv s i
      | ioctl =>
        by_cases ht : inv.terminated = true
        · have happ : applyOp (Op.abortGet (ItemRef.slot s)) inv
              = (wrapperToFree inv s (-eio) (-enodev)).1 := by
            simp [applyOp, kbdus_inverter_abort_item_get,
                  cancelDueToTermination, htype, ht]
          rw [happ]
          exact seqnumStep_toFree inv s i _ _ (by simp [hbg])
        · have happ : applyOp (Op.abortGet (ItemRef.slot s)) inv
              = wrapperToAwaitingGet inv s := by
            simp [applyOp, kbdus_inverter_abort_item_get, htype, ht]
          rw [happ]
          exact seqnumStep_toAwaitingGet inv s i
  | beginComplete index seqnum =>
    cases hw : handleIndexToWrapper inv index with
    | none =>
      exact seqnumStep_eq
        (by simp [applyOp, kbdus_inverter_begin_item_completion, hw])
    | some s =>
      by_cases hsq : (getWrapper inv s).item.handle_seqnum = seqnum
      · by_cases hst : (getWrapper inv s).state = ReqState.awaitingCompletion
        · have happ : applyOp (Op.beginComplete index seqnum) inv
              = wrapperToBeingCompleted inv s := by
            simp [applyOp, kbdus_inverter_begin_item_completion, hw, hsq, hst]
          rw [happ]
          exact seqnumStep_toBeingCompleted inv s i
        · exact seqnumStep_eq
            (by simp [applyOp, kbdus_inverter_begin_item_completion, hw, hsq,
                      hst])
      · exact seqnumStep_eq
          (by simp [applyOp, kbdus_inverter_begin_item_completion, hw, hsq])
  | commitComplete s negErrno =>
    have hbc : (getWrapper inv s).state = ReqState.beingCompleted := h
    by_cases ht : inv.terminated = true
    · have happ : applyOp (Op.commitComplete s negErrno) inv
          = (wrapperToFree inv s (-eio) (-enodev)).1 := by
        simp [applyOp, kbdus_inverter_commit_item_completion,
              cancelDueToTermination, ht]
      rw [happ]
      exact seqnumStep_toFree inv s i _ _ (by simp [hbc])
    · have happ : applyOp (Op.commitComplete s negErrno) inv
          = (wrapperToFree inv s
              (if negErrno ≠ 0 ∧ negErrno ≠ -enolink ∧ negErrno ≠ -enospc
                  ∧ negErrno ≠ -etimedout then -eio else negErrno)
              (if negErrno < -133 ∨ 0 < negErrno ∨ negErrno = -enosys
                then -eio else negErrno)).1 := by
        simp [applyOp, kbdus_inverter_commit_item_completion, ht]
      rw [happ]
      exact seqnumStep_toFree inv s i _ _ (by simp [hbc])
  | abortComplete s =>
    have hbc : (getWrapper inv s).state = ReqState.beingCompleted := h
    by_cases ht : inv.terminated = true
    · have happ : applyOp (Op.abortComplete s) inv
          = (wrapperToFree inv s (-eio) (-enodev)).1 := by
        simp [applyOp, kbdus_inverter_abort_item_completion,
              cancelDueToTermination, ht]
      rw [happ]
      exact seqnumStep_toFree inv s i _ _ (by simp [hbc])
    · have happ : applyOp (Op.abortComplete s) inv
          = wrapperToAwaitingCompletion inv s := by
        simp [applyOp, kbdus_inverter_abort_item_completion, ht]
      rw [happ]
      exact seqnumStep_toAwaitingCompletion inv s i

/-- Transition `wrapperToAwaitingGet` preserves the flag fields. -/
theorem toAwaitingGet_flags (inv : Inverter) (t : Nat) :
    (wrapperToAwaitingGet inv t).terminated = inv.terminated
    ∧ (wrapperToAwaitingGet inv t).deactivated = inv.deactivated
    ∧ (wrapperToAwaitingGet inv t).deactivatedNotFlushed
        = inv.deactivatedNotFlushed
    ∧ (wrapperToAwaitingGet inv t).sendDeviceAvailable
        = inv.sendDeviceAvailable := by
  by_cases hs : (getWrapper inv t).state = ReqState.free <;>
    simp [wrapperToAwaitingGet, setWrapper, hs]

/-- Transition `wrapperToAwaitingGet` preserves the slot-table length. -/
theorem toAwaitingGet_length (inv : Inverter) (t : Nat) :
    (wrapperToAwaitingGet inv t).reqsAll.length = inv.reqsAll.length := by
  by_cases hs : (getWrapper inv t).state = ReqState.free <;>
    simp [wrapperToAwaitingGet, setWrapper, hs]

/-- Transition `wrapperToAwaitingGet` on a slot that is not on the free list
(`state ≠ FREE`, the `list_add` branch) prepends the slot to the
awaiting-get list. -/
theorem toAwaitingGet_awaitList (inv : Inverter) (t : Nat)
    (h : (getWrapper inv t).state ≠ ReqState.free) :
    (wrapperToAwaitingGet inv t).reqsAwaitingGet
      = t :: inv.reqsAwaitingGet := by
  simp [wrapperToAwaitingGet, setWrapper, h]

/-- Transition `wrapperToAwaitingGet` on a `FREE` slot (the `list_move_tail` branch)
removes it from the free list and appends it to the awaiting-get list. -/
theorem toAwaitingGet_lists_free (inv : Inverter) (t : Nat)
    (h : (getWrapper inv t).state = ReqState.free) :
    (wrapperToAwaitingGet inv t).reqsAwaitingGet
        = inv.reqsAwaitingGet ++ [t]
    ∧ (wrapperToAwaitingGet inv t).reqsFree = inv.reqsFree.erase t := by
  simp [wrapperToAwaitingGet, setWrapper, h]

/-- Transition `wrapperToBeingGotten` preserves the flag fields. -/
theorem toBeingGotten_flags (inv : Inverter) (t : Nat) :
    (wrapperToBeingGotten inv t).terminated = inv.terminated
    ∧ (wrapperToBeingGotten inv t).deactivated = inv.deactivated
    ∧ (wrapperToBeingGotten inv t).deactivatedNotFlushed
        = inv.deactivatedNotFlushed
    ∧ (wrapperToBeingGotten inv t).sendDeviceAvailable
        = inv.sendDeviceAvailable := by
  simp [wrapperToBeingGotten, setWrapper]

/-- Transition `wrapperToBeingGotten` preserves the slot-table length. -/
theorem toBeingGotten_length (inv : Inverter) (t : Nat) :
    (wrapperToBeingGotten inv t).reqsAll.length = inv.reqsAll.length := by
  simp [wrapperToBeingGotten, setWrapper]

/-- Calling `begin_get` on a deactivated or terminated inverter whose
flush-and-terminate pseudo-item is not armed returns the `TERMINATE`
pseudo-item and leaves the inverter unchanged. -/
theorem beginGet_terminate (s : Inverter)
    (h : s.deactivated = true ∨ s.terminated = true)
    (hn : s.deactivatedNotFlushed = false) :
    kbdus_inverter_begin_item_get s = (s, some ItemRef.pseudoTerminate) := by
  rcases h with h | h <;> simp [kbdus_inverter_begin_item_get, hn, h]

/-- Along iterated `begin_get` on a deactivated or terminated inverter, the
`deactivated` and `terminated` flags persist and the flush-and-terminate
pseudo-item is disarmed after the first call. -/
theorem beginGetN_flags (s : Inverter)
    (h : s.deactivated = true ∨ s.terminated = true) (n : Nat) :
    (beginGetN s n).1.deactivated = s.deactivated
    ∧ (beginGetN s n).1.terminated = s.terminated
    ∧ (beginGetN s n).1.deactivatedNotFlushed = false := by
  induction n with
  | zero =>
    by_cases hf : s.deactivatedNotFlushed = true
    · simp [beginGetN, kbdus_inverter_begin_item_get, hf]
    · have hn : s.deactivatedNotFlushed = false := by
        simp at hf
        exact hf
      rw [show beginGetN s 0 = kbdus_inverter_begin_item_get s from rfl,
          beginGet_terminate s h hn]
      exact ⟨rfl, rfl, hn⟩
  | succ n ih =>
    obtain ⟨h1, h2, h3⟩ := ih
    have hor : (beginGetN s n).1.deactivated = true
        ∨ (beginGetN s n).1.terminated = true := by
      rw [h1, h2]
      exact h
    rw [show beginGetN s (n + 1)
          = kbdus_inverter_begin_item_get (beginGetN s n).1 from rfl,
        beginGet_terminate (beginGetN s n).1 hor h3]
    exact ⟨h1, h2, h3⟩

/-- Along any contract-respecting trace, a slot's seqnum grows by exactly
the number of its transitions into state `FREE`. -/
theorem seqnum_trace (ops : List Op) (inv : Inverter) (i : Nat)
    (h : TraceWF inv ops) :
    (getWrapper (runOps inv ops) i).item.handle_seqnum
      = (getWrapper inv i).item.handle_seqnum
        + countFreeTransitions inv ops i := by
  induction ops generalizing inv with
  | nil => simp [runOps, countFreeTransitions]
  | cons op rest ih =>
    cases h with
    | cons _ _ _ hwf hrest =>
      have hstep := seqnumStep_applyOp op inv i hwf
      have hrun : runOps inv (op :: rest) = runOps (applyOp op inv) rest :=
        rfl
      have hcount : countFreeTransitions inv (op :: rest) i
          = (if (getWrapper inv i).state ≠ ReqState.free
                ∧ (getWrapper (applyOp op inv) i).state = ReqState.free
             then 1 else 0)
            + countFreeTransitions (applyOp op inv) rest i := rfl
      rw [hrun, hcount, ih (applyOp op inv) hrest]
      unfold seqnumStep at hstep
      by_cases hc : (getWrapper inv i).state ≠ ReqState.free
          ∧ (getWrapper (applyOp op inv) i).state = ReqState.free <;>
        simp [hc] at hstep ⊢ <;> omega

/-- Claim C9: for every slot of every inverter, across every
contract-respecting sequence of inverter operations, the slot's seqnum is
non-decreasing and is incremented by exactly one on each transition of that
slot to state `FREE` (and on no other transition): the final seqnum equals
the initial seqnum plus the number of the slot's transitions to `FREE`
along the trace. -/
theorem c9_seqnum_free_transitions (inv : Inverter) (ops : List Op) (i : Nat)
    (h : TraceWF inv ops) :
    (getWrapper (runOps inv ops) i).item.handle_seqnum
      = (getWrapper inv i).item.handle_seqnum
        + countFreeTransitions inv ops i
    ∧ (getWrapper inv i).item.handle_seqnum
      ≤ (getWrapper (runOps inv ops) i).item.handle_seqnum := by
  have he := seqnum_trace ops inv i h
  exact ⟨he, by omega⟩

/-- Witness for C9: a concrete two-operation trace (submit a read, then
terminate) on a freshly created one-slot inverter. -/
theorem c9_seqnum_free_transitions_witness :
    (getWrapper (runOps (kbdus_inverter_create cfg1)
        [Op.submit 3 ItemType.read, Op.terminateOp]) 0).item.handle_seqnum
      = (getWrapper (kbdus_inverter_create cfg1) 0).item.handle_seqnum
        + countFreeTransitions (kbdus_inverter_create cfg1)
            [Op.submit 3 ItemType.read, Op.terminateOp] 0 :=
  (c9_seqnum_free_transitions (kbdus_inverter_create cfg1)
    [Op.submit 3 ItemType.read, Op.terminateOp] 0
    (TraceWF.cons _ _ _ trivial
      (TraceWF.cons _ _ _ trivial (TraceWF.nil _)))).1

/-- Counterexample to C1 as stated: on a non-terminated inverter whose slot
0 is `BEING_COMPLETED` with an `IOCTL` request, `commit_complete` with
`neg_errno = 0` records ioctl status 0 (success passes through), whereas
the claim's allow-list `[1, 133]` excludes 0 and demands `EIO`. -/
theorem c1_counterexample :
    cexInvC1.terminated = false
    ∧ (getWrapper cexInvC1 0).state = ReqState.beingCompleted
    ∧ (getWrapper cexInvC1 0).item.type = ItemType.ioctl
    ∧ (kbdus_inverter_commit_item_completion cexInvC1 0 0).2.error_ioctl = 0
    ∧ ((0 : Int) = -eio → False) := by decide

/-- Claim C1 (amended): for every slot in state `BEING_COMPLETED` whose
inverter is not terminated, `commit_complete(item, neg_errno)` transitions
the slot to `FREE` and completes the kernel request with a sanitised
status: for non-ioctl requests the errno passes through exactly when it is
in {0, `ENOLINK`, `ENOSPC`, `ETIMEDOUT`} and becomes `EIO` otherwise; for
ioctl requests the (negated) errno passes through exactly when it lies in
[0, 133] and is not `ENOSYS`, and becomes `EIO` otherwise. -/
theorem c1_commit_complete_sanitisation (inv : Inverter) (i : Nat) (e : Int)
    (hterm : inv.terminated = false)
    (hst : (getWrapper inv i).state = ReqState.beingCompleted) :
    (getWrapper (kbdus_inverter_commit_item_completion inv i e).1 i).state
        = ReqState.free
    ∧ (kbdus_inverter_commit_item_completion inv i e).2.req
        = (getWrapper inv i).item.req
    ∧ ((getWrapper inv i).item.type ≠ ItemType.ioctl →
        deliveredStatus (getWrapper inv i).item.type
            (kbdus_inverter_commit_item_completion inv i e).2
          = if e = 0 ∨ e = -enolink ∨ e = -enospc ∨ e = -etimedout
            then e else -eio)
    ∧ ((getWrapper inv i).item.type = ItemType.ioctl →
        deliveredStatus (getWrapper inv i).item.type
            (kbdus_inverter_commit_item_completion inv i e).2
          = if -133 ≤ e ∧ e ≤ 0 ∧ e ≠ -enosys then e else -eio) := by
  have hne : (getWrapper inv i).state ≠ ReqState.free := by simp [hst]
  have hlt : i < inv.reqsAll.length := lt_length_of_state_ne_free hne
  have happ : kbdus_inverter_commit_item_completion inv i e
      = wrapperToFree inv i
          (if e ≠ 0 ∧ e ≠ -enolink ∧ e ≠ -enospc ∧ e ≠ -etimedout
           then -eio else e)
          (if e < -133 ∨ 0 < e ∨ e = -enosys then -eio else e) := by
    simp [kbdus_inverter_commit_item_completion, hterm]
  rw [happ, wrapperToFree_completion]
  refine ⟨?_, rfl, ?_, ?_⟩
  · rw [getWrapper_toFree]
    simp [hlt, freedWrapper]
  · intro hio
    simp only [deliveredStatus, if_neg hio]
    by_cases hc : e = 0 ∨ e = -enolink ∨ e = -enospc ∨ e = -etimedout
    · have hn : ¬(e ≠ 0 ∧ e ≠ -enolink ∧ e ≠ -enospc ∧ e ≠ -etimedout) := by
        tauto
      rw [if_neg hn, if_pos hc]
    · have hp : e ≠ 0 ∧ e ≠ -enolink ∧ e ≠ -enospc ∧ e ≠ -etimedout := by
        tauto
      rw [if_pos hp, if_neg hc]
  · intro hio
    simp only [deliveredStatus, if_pos hio]
    by_cases hc : -133 ≤ e ∧ e ≤ 0 ∧ e ≠ -enosys
    · have hn : ¬(e < -133 ∨ 0 < e ∨ e = -enosys) := by
        simp only [enosys] at hc ⊢
        omega
      rw [if_neg hn, if_pos hc]
    · have hp : e < -133 ∨ 0 < e ∨ e = -enosys := by
        simp only [enosys] at hc ⊢
        omega
      rw [if_pos hp, if_neg hc]

/-- Witness for the amended C1 at the concrete `BEING_COMPLETED` ioctl
slot of `cexInvC1` with `neg_errno = 0`. -/
theorem c1_commit_complete_sanitisation_witness :
    (cexInvC1.terminated = false
      ∧ (getWrapper cexInvC1 0).state = ReqState.beingCompleted)
    ∧ (getWrapper (kbdus_inverter_commit_item_completion cexInvC1 0 0).1
          0).state = ReqState.free :=
  ⟨by decide,
   (c1_commit_complete_sanitisation cexInvC1 0 0 (by decide) (by decide)).1⟩

/-- Counterexample to C2 as stated: releasing an attached client of an
`ACTIVE`, non-recoverable, marked-successful device with no handover waiter
deactivates with `flush = false` as claimed, but then destroys the device
(`else if (!device_config->recoverable) kbdus_control_destroy_device_`),
whereas the claim says the device is kept. -/
theorem c2_counterexample :
    kbdus_control_release
        { state := DeviceState.active, recoverable := false,
          successful := true, hasWaiter := false }
      = { devCalls := [DevCall.deactivateDevice false], wakeWaiter := false,
          destroy := true } := by decide

/-- Claim C2 (amended): when a client releases its control-file handle
while its device is `ACTIVE` with `recoverable = false` and
`marked_successful = true`, the device is deactivated with `flush = false`
and any handover waiter is woken; if no waiter exists the device is
destroyed (it is non-recoverable and becomes clientless), not kept. -/
theorem c2_release_active_unrecoverable_successful :
    ∀ w : Bool,
      kbdus_control_release
          { state := DeviceState.active, recoverable := false,
            successful := true, hasWaiter := w }
        = { devCalls := [DevCall.deactivateDevice false], wakeWaiter := w,
            destroy := !w } := by decide

/-- Counterexample to C3 as stated: deactivate with `flush = true` (arming
the flush-and-terminate pseudo-item), then terminate; the next `begin_get`
returns the `FLUSH_AND_TERMINATE` pseudo-item, not `TERMINATE`, because
`begin_get` checks `DEACTIVATED_NOT_FLUSHED_` before `TERMINATED_` and
`terminate` does not clear that flag. -/
theorem c3_counterexample :
    cexInvC3.terminated = true
    ∧ cexInvC3.deactivatedNotFlushed = true
    ∧ (kbdus_inverter_begin_item_get cexInvC3).2
        = some ItemRef.pseudoFlushTerminate
    ∧ (ItemRef.pseudoFlushTerminate = ItemRef.pseudoTerminate → False) := by
  decide

/-- Claim C3 (amended): after `terminate()`, every subsequent `begin_get`
returns the `TERMINATE` pseudo-item, except that if a preceding
`deactivate(flush=true)` armed the flush-and-terminate pseudo-item and it
has not yet been delivered, the first `begin_get` returns
`FLUSH_AND_TERMINATE` (disarming it) and every later one returns
`TERMINATE`. -/
theorem c3_begin_get_after_terminate (inv : Inverter) (n : Nat)
    (h : inv.terminated = true) :
    (beginGetN inv n).2
      = some (if inv.deactivatedNotFlushed = true ∧ n = 0
              then ItemRef.pseudoFlushTerminate
              else ItemRef.pseudoTerminate) := by
  cases n with
  | zero =>
    by_cases hf : inv.deactivatedNotFlushed = true
    · simp [beginGetN, kbdus_inverter_begin_item_get, hf]
    · have hn : inv.deactivatedNotFlushed = false := by
        simp at hf
        exact hf
      rw [show beginGetN inv 0 = kbdus_inverter_begin_item_get inv from rfl,
          beginGet_terminate inv (Or.inr h) hn]
      simp [hn]
  | succ n =>
    obtain ⟨_, h2, h3⟩ := beginGetN_flags inv (Or.inr h) n
    rw [show beginGetN inv (n + 1)
          = kbdus_inverter_begin_item_get (beginGetN inv n).1 from rfl,
        beginGet_terminate (beginGetN inv n).1 (Or.inr (by rw [h2]; exact h))
          h3]
    simp

/-- Witness for the amended C3 at the concrete armed-and-terminated
inverter `cexInvC3`, first `begin_get` (`n = 0`). -/
theorem c3_begin_get_after_terminate_witness :
    cexInvC3.terminated = true
    ∧ (beginGetN cexInvC3 0).2
        = some (if cexInvC3.deactivatedNotFlushed = true ∧ 0 = 0
                then ItemRef.pseudoFlushTerminate
                else ItemRef.pseudoTerminate) :=
  ⟨by decide, c3_begin_get_after_terminate cexInvC3 0 (by decide)⟩

/-- Claim C4: for every request whose handle is stored in its private data
(the PDU's index resolves to slot `i`), `timeout(req)` returns `done` if
the slot's current seqnum differs from the handle's seqnum; returns
`reset_timer` if the seqnums match and the slot is `BEING_GOTTEN` or
`BEING_COMPLETED`; and if the seqnums match and the slot is `AWAITING_GET`
or `AWAITING_COMPLETION`, forces the slot to `FREE` and completes the
kernel request with `ETIMEDOUT`, returning `done`. -/
theorem c4_timeout_request (inv : Inverter) (pdu : Pdu) (i : Nat)
    (hw : handleIndexToWrapper inv pdu.handle_index = some i) :
    ((getWrapper inv i).item.handle_seqnum ≠ pdu.handle_seqnum →
      kbdus_inverter_timeout_request inv pdu
        = some (inv, none, TimerReturn.done))
    ∧ ((getWrapper inv i).item.handle_seqnum = pdu.handle_seqnum →
        (((getWrapper inv i).state = ReqState.beingGotten
            ∨ (getWrapper inv i).state = ReqState.beingCompleted) →
          kbdus_inverter_timeout_request inv pdu
            = some (inv, none, TimerReturn.resetTimer))
        ∧ (((getWrapper inv i).state = ReqState.awaitingGet
            ∨ (getWrapper inv i).state = ReqState.awaitingCompletion) →
          kbdus_inverter_timeout_request inv pdu
            = some ((wrapperToFree inv i (-etimedout) (-etimedout)).1,
                some { req := (getWrapper inv i).item.req,
                       error := -etimedout, error_ioctl := -etimedout },
                TimerReturn.done)
          ∧ (getWrapper (wrapperToFree inv i (-etimedout) (-etimedout)).1
                i).state = ReqState.free)) := by
  refine ⟨?_, ?_⟩
  · intro hsq
    simp [kbdus_inverter_timeout_request, hw, hsq]
  · intro hsq
    refine ⟨?_, ?_⟩
    · rintro (hst | hst) <;>
        simp [kbdus_inverter_timeout_request, hw, hsq, hst]
    · rintro (hst | hst) <;>
        exact ⟨by simp [kbdus_inverter_timeout_request, hw, hsq, hst,
                        wrapperToFree_completion],
               by
                have hlt : i < inv.reqsAll.length :=
                  lt_length_of_state_ne_free (by simp [hst])
                rw [getWrapper_toFree]
                simp [hlt, freedWrapper]⟩

/-- Witness for C4 at the concrete inverter `invBG` (slot 0 in
`BEING_GOTTEN`), whose PDU handle `(1, 0)` resolves to slot 0 with matching
seqnum: the timeout is refused with `reset_timer`. -/
theorem c4_timeout_request_witness :
    (handleIndexToWrapper invBG pduSlot0.handle_index = some 0
      ∧ (getWrapper invBG 0).item.handle_seqnum = pduSlot0.handle_seqnum
      ∧ (getWrapper invBG 0).state = ReqState.beingGotten)
    ∧ kbdus_inverter_timeout_request invBG pduSlot0
        = some (invBG, none, TimerReturn.resetTimer) :=
  ⟨by decide,
   ((c4_timeout_request invBG pduSlot0 0 (by decide)).2 (by decide)).1
     (Or.inl (by decide))⟩

/-- Claim C5: `submit(req)` returns `EIO` (recording ioctl-variant errno
`ENODEV`) without consuming any slot when the inverter is terminated;
returns `EOPNOTSUPP` (ioctl variant `ENOTTY`) without consuming any slot
when the derived item type is unsupported; and otherwise takes the head of
the free-list, fills it from the request, moves the slot to `AWAITING_GET`,
and writes the slot's handle (index, seqnum) into the request's private
data, returning ok. -/
theorem c5_submit_request (inv : Inverter) (req : Nat) (t : ItemType) :
    (inv.terminated = true →
      kbdus_inverter_submit_request inv req t
        = some (inv, { handle_seqnum := 0, handle_index := 0,
                       error := -eio, error_ioctl := -enodev }, -eio))
    ∧ (inv.terminated = false →
        kbdus_inverter_req_is_supported inv t = false →
        kbdus_inverter_submit_request inv req t
          = some (inv, { handle_seqnum := 0, handle_index := 0,
                         error := -eopnotsupp, error_ioctl := -enotty },
                  -eopnotsupp))
    ∧ (∀ i rest, inv.terminated = false →
        kbdus_inverter_req_is_supported inv t = true →
        inv.reqsFree = i :: rest →
        (getWrapper inv i).state = ReqState.free →
        i < inv.reqsAll.length →
        kbdus_inverter_submit_request inv req t
          = some (wrapperToAwaitingGet
                    (setWrapper inv i
                      { getWrapper inv i with
                        item := { (getWrapper inv i).item with
                                  type := t, req := req } }) i,
                  { handle_seqnum := (getWrapper inv i).item.handle_seqnum,
                    handle_index := (getWrapper inv i).item.handle_index,
                    error := 0, error_ioctl := 0 }, 0)
        ∧ (getWrapper (wrapperToAwaitingGet
              (setWrapper inv i
                { getWrapper inv i with
                  item := { (getWrapper inv i).item with
                            type := t, req := req } }) i) i)
            = { item := { handle_seqnum :=
                            (getWrapper inv i).item.handle_seqnum,
                          req := req,
                          handle_index :=
                            (getWrapper inv i).item.handle_index,
                          type := t },
                state := ReqState.awaitingGet }
        ∧ (wrapperToAwaitingGet
              (setWrapper inv i
                { getWrapper inv i with
                  item := { (getWrapper inv i).item with
                            type := t, req := req } }) i).reqsAwaitingGet
            = inv.reqsAwaitingGet ++ [i]
        ∧ (wrapperToAwaitingGet
              (setWrapper inv i
                { getWrapper inv i with
                  item := { (getWrapper inv i).item with
                            type := t, req := req } }) i).reqsFree
            = rest) := by
  refine ⟨?_, ?_, ?_⟩
  · intro ht
    simp [kbdus_inverter_submit_request, ht]
  · intro ht hs
    simp [kbdus_inverter_submit_request, ht, hs]
  · intro i rest ht hs hfree hstfree hlt
    have hset : getWrapper
        (setWrapper inv i
          { getWrapper inv i with
            item := { (getWrapper inv i).item with
                      type := t, req := req } }) i
        = { getWrapper inv i with
            item := { (getWrapper inv i).item with
                      type := t, req := req } } :=
      getWrapper_set_self hlt
    have hlen : (setWrapper inv i
        { getWrapper inv i with
          item := { (getWrapper inv i).item with
                    type := t, req := req } }).reqsAll.length
        = inv.reqsAll.length := by
      simp [setWrapper]
    have hwrap : getWrapper (wrapperToAwaitingGet
        (setWrapper inv i
          { getWrapper inv i with
            item := { (getWrapper inv i).item with
                      type := t, req := req } }) i) i
        = { item := { handle_seqnum := (getWrapper inv i).item.handle_seqnum,
                      req := req,
                      handle_index := (getWrapper inv i).item.handle_index,
                      type := t },
            state := ReqState.awaitingGet } := by
      rw [getWrapper_toAwaitingGet]
      simp [hlen, hlt, hset]
    have hcond : (getWrapper
        (setWrapper inv i
          { getWrapper inv i with
            item := { (getWrapper inv i).item with
                      type := t, req := req } }) i).state
        = ReqState.free := by
      rw [hset]
      exact hstfree
    obtain ⟨hag, hfr⟩ := toAwaitingGet_lists_free _ i hcond
    refine ⟨?_, hwrap, ?_, ?_⟩
    · simp only [kbdus_inverter_submit_request, ht, hs, hfree]
      simp [hwrap]
    · rw [hag]
      simp [setWrapper]
    · rw [hfr]
      simp [setWrapper, hfree]

/-- Witness for C5 on the concrete terminated inverter `invTerm`: a read
submission fails with `-EIO` (ioctl variant `-ENODEV`) and a null handle,
leaving the inverter unchanged. -/
theorem c5_submit_request_witness :
    invTerm.terminated = true
    ∧ kbdus_inverter_submit_request invTerm 9 ItemType.read
        = some (invTerm, { handle_seqnum := 0, handle_index := 0,
                           error := -eio, error_ioctl := -enodev }, -eio) :=
  ⟨by decide, (c5_submit_request invTerm 9 ItemType.read).1 (by decide)⟩

/-- Claim C6: `begin_complete(index, seqnum)` — out-of-range index yields
`EINVAL`; a stale seqnum yields the silent null drop with the inverter
unchanged; a matching seqnum with a state other than `AWAITING_COMPLETION`
yields `EINVAL` with the inverter unchanged; a matching seqnum with state
`AWAITING_COMPLETION` transitions the slot to `BEING_COMPLETED` and
returns it. -/
theorem c6_begin_complete (inv : Inverter) (index seqnum : Nat) :
    (handleIndexToWrapper inv index = none →
      kbdus_inverter_begin_item_completion inv index seqnum
        = (inv, BeginCompletionResult.invalidArg))
    ∧ (∀ i, handleIndexToWrapper inv index = some i →
        ((getWrapper inv i).item.handle_seqnum ≠ seqnum →
          kbdus_inverter_begin_item_completion inv index seqnum
            = (inv, BeginCompletionResult.dropped))
        ∧ ((getWrapper inv i).item.handle_seqnum = seqnum →
            ((getWrapper inv i).state ≠ ReqState.awaitingCompletion →
              kbdus_inverter_begin_item_completion inv index seqnum
                = (inv, BeginCompletionResult.invalidArg))
            ∧ ((getWrapper inv i).state = ReqState.awaitingCompletion →
              kbdus_inverter_begin_item_completion inv index seqnum
                = (wrapperToBeingCompleted inv i,
                   BeginCompletionResult.item (ItemRef.slot i))
              ∧ (getWrapper (wrapperToBeingCompleted inv i) i).state
                  = ReqState.beingCompleted))) := by
  refine ⟨?_, ?_⟩
  · intro hw
    simp [kbdus_inverter_begin_item_completion, hw]
  · intro i hw
    refine ⟨?_, ?_⟩
    · intro hsq
      simp [kbdus_inverter_begin_item_completion, hw, hsq]
    · intro hsq
      refine ⟨?_, ?_⟩
      · intro hst
        simp [kbdus_inverter_begin_item_completion, hw, hsq, hst]
      · intro hst
        refine ⟨?_, ?_⟩
        · simp [kbdus_inverter_begin_item_completion, hw, hsq, hst]
        · have hlt : i < inv.reqsAll.length :=
            lt_length_of_state_ne_free (by simp [hst])
          rw [getWrapper_toBeingCompleted]
          simp [hlt]

/-- Witness for C6 at the concrete inverter `invAC` (slot 0 in
`AWAITING_COMPLETION`), handle `(1, 0)`: the slot moves to
`BEING_COMPLETED` and is returned. -/
theorem c6_begin_complete_witness :
    (handleIndexToWrapper invAC 1 = some 0
      ∧ (getWrapper invAC 0).item.handle_seqnum = 0
      ∧ (getWrapper invAC 0).state = ReqState.awaitingCompletion)
    ∧ kbdus_inverter_begin_item_completion invAC 1 0
        = (wrapperToBeingCompleted invAC 0,
           BeginCompletionResult.item (ItemRef.slot 0)) :=
  ⟨by decide,
   (((((c6_begin_complete invAC 1 0).2 0 (by decide)).2 (by decide)).2)
     (by decide)).1⟩

/-- Claim C7: after `deactivate(flush=true)` on an active inverter (not
terminated, not already deactivated) whose device supports flush, the
consumer receives exactly one `FLUSH_AND_TERMINATE` item from `begin_get`
(the first call) and every later `begin_get` returns `TERMINATE`; after
`deactivate` with `flush=false`, or when flush is unsupported, every
`begin_get` returns `TERMINATE`. -/
theorem c7_deactivate_item_stream (inv : Inverter) (flush : Bool)
    (hterm : inv.terminated = false) (hdeact : inv.deactivated = false)
    (hnf : inv.deactivatedNotFlushed = false) :
    ((flush = true ∧ inv.supportsFlush = true) →
      (beginGetN (kbdus_inverter_deactivate inv flush) 0).2
          = some ItemRef.pseudoFlushTerminate
      ∧ ∀ n, (beginGetN (kbdus_inverter_deactivate inv flush) (n + 1)).2
          = some ItemRef.pseudoTerminate)
    ∧ ((flush = false ∨ inv.supportsFlush = false) →
      ∀ n, (beginGetN (kbdus_inverter_deactivate inv flush) n).2
          = some ItemRef.pseudoTerminate) := by
  refine ⟨?_, ?_⟩
  · rintro ⟨hfl, hsf⟩
    have hd1 : (kbdus_inverter_deactivate inv flush).deactivated = true := by
      simp [kbdus_inverter_deactivate, hdeact, hfl, hsf]
    have hd2 : (kbdus_inverter_deactivate inv flush).deactivatedNotFlushed
        = true := by
      simp [kbdus_inverter_deactivate, hdeact, hfl, hsf]
    refine ⟨?_, ?_⟩
    · simp [beginGetN, kbdus_inverter_begin_item_get, hd2]
    · intro n
      obtain ⟨g1, g2, g3⟩ := beginGetN_flags _ (Or.inl hd1) n
      rw [show beginGetN (kbdus_inverter_deactivate inv flush) (n + 1)
            = kbdus_inverter_begin_item_get
                (beginGetN (kbdus_inverter_deactivate inv flush) n).1
            from rfl,
          beginGet_terminate _ (Or.inl (by rw [g1]; exact hd1)) g3]
  · intro hor
    have hd1 : (kbdus_inverter_deactivate inv flush).deactivated = true := by
      rcases hor with h | h <;> simp [kbdus_inverter_deactivate, hdeact, h]
    have hd2 : (kbdus_inverter_deactivate inv flush).deactivatedNotFlushed
        = false := by
      rcases hor with h | h <;>
        simp [kbdus_inverter_deactivate, hdeact, h, hnf]
    intro n
    cases n with
    | zero =>
      rw [show beginGetN (kbdus_inverter_deactivate inv flush) 0
            = kbdus_inverter_begin_item_get (kbdus_inverter_deactivate inv
                flush) from rfl,
          beginGet_terminate _ (Or.inl hd1) hd2]
    | succ n =>
      obtain ⟨g1, g2, g3⟩ := beginGetN_flags _ (Or.inl hd1) n
      rw [show beginGetN (kbdus_inverter_deactivate inv flush) (n + 1)
            = kbdus_inverter_begin_item_get
                (beginGetN (kbdus_inverter_deactivate inv flush) n).1
            from rfl,
          beginGet_terminate _ (Or.inl (by rw [g1]; exact hd1)) g3]

/-- Witness for C7 on a freshly created flush-capable one-slot inverter,
deactivated with `flush = true`: the first `begin_get` returns the
`FLUSH_AND_TERMINATE` pseudo-item. -/
theorem c7_deactivate_item_stream_witness :
    ((kbdus_inverter_create cfg1).terminated = false
      ∧ (kbdus_inverter_create cfg1).supportsFlush = true)
    ∧ (beginGetN (kbdus_inverter_deactivate (kbdus_inverter_create cfg1)
          true) 0).2 = some ItemRef.pseudoFlushTerminate :=
  ⟨by decide,
   ((c7_deactivate_item_stream (kbdus_inverter_create cfg1) true (by decide)
      (by decide) (by decide)).1 ⟨rfl, by decide⟩).1⟩

/-- Claim C8: on a non-terminated inverter, after `submit(req)` succeeds
and `begin_get` hands out a real slot `i` (in `BEING_GOTTEN` as the
two-phase contract guarantees), `abort_get` followed by another `begin_get`
returns the very same slot with its item — in particular its seqnum —
unchanged. -/
theorem c8_submit_get_abort_get (inv : Inverter) (req : Nat) (t : ItemType)
    (inv1 inv2 : Inverter) (pdu : Pdu) (r : Int) (i : Nat)
    (hsub : kbdus_inverter_submit_request inv req t = some (inv1, pdu, r))
    (hget : kbdus_inverter_begin_item_get inv1
      = (inv2, some (ItemRef.slot i)))
    (hreal : (getWrapper inv2 i).item.type.isPseudo = false)
    (hbg : (getWrapper inv2 i).state = ReqState.beingGotten) :
    (kbdus_inverter_begin_item_get
        (kbdus_inverter_abort_item_get inv2 (ItemRef.slot i)).1).2
      = some (ItemRef.slot i)
    ∧ (getWrapper ((kbdus_inverter_begin_item_get
          (kbdus_inverter_abort_item_get inv2 (ItemRef.slot i)).1).1) i).item
      = (getWrapper inv1 i).item
    ∧ (getWrapper ((kbdus_inverter_begin_item_get
          (kbdus_inverter_abort_item_get inv2 (ItemRef.slot i)).1).1)
          i).item.handle_seqnum
      = (getWrapper inv1 i).item.handle_seqnum := by
  by_cases f1 : inv1.deactivatedNotFlushed = true
  · simp [kbdus_inverter_begin_item_get, f1] at hget
  by_cases f2 : (inv1.deactivated = true) ∨ (inv1.terminated = true)
  · simp [kbdus_inverter_begin_item_get, f1, f2] at hget
  by_cases f3 : inv1.sendDeviceAvailable = true
  · simp [kbdus_inverter_begin_item_get, f1, f2, f3] at hget
  cases haw : inv1.reqsAwaitingGet with
  | nil => simp [kbdus_inverter_begin_item_get, f1, f2, f3, haw] at hget
  | cons hd tl =>
    have hc : wrapperToBeingGotten inv1 hd = inv2 ∧ hd = i := by
      simpa [kbdus_inverter_begin_item_get, f1, f2, f3, haw] using hget
    obtain ⟨he, hi⟩ := hc
    subst hi
    subst he
    have ht1 : inv1.terminated = false := by
      rcases Bool.eq_false_or_eq_true inv1.terminated with h | h
      · exact absurd (Or.inr h) f2
      · exact h
    have ht2 : (wrapperToBeingGotten inv1 hd).terminated = false := by
      rw [(toBeingGotten_flags inv1 hd).1]
      exact ht1
    have habort : (kbdus_inverter_abort_item_get
        (wrapperToBeingGotten inv1 hd) (ItemRef.slot hd)).1
        = wrapperToAwaitingGet (wrapperToBeingGotten inv1 hd) hd := by
      cases htype : (getWrapper (wrapperToBeingGotten inv1 hd) hd).item.type
      case deviceAvailable => simp [ItemType.isPseudo, htype] at hreal
      case terminateItem => simp [ItemType.isPseudo, htype] at hreal
      case flushAndTerminate => simp [ItemType.isPseudo, htype] at hreal
      all_goals simp [kbdus_inverter_abort_item_get, htype, ht2]
    rw [habort]
    have hne2 : (getWrapper (wrapperToBeingGotten inv1 hd) hd).state
        ≠ ReqState.free := by simp [hbg]
    have hlt2 : hd < (wrapperToBeingGotten inv1 hd).reqsAll.length :=
      lt_length_of_state_ne_free hne2
    have hlt1 : hd < inv1.reqsAll.length := by
      rw [toBeingGotten_length] at hlt2
      exact hlt2
    have hitem2 : (getWrapper (wrapperToBeingGotten inv1 hd) hd).item
        = (getWrapper inv1 hd).item := by
      rw [getWrapper_toBeingGotten]
      simp [hlt1]
    obtain ⟨k1, k2, k3, k4⟩ :=
      toAwaitingGet_flags (wrapperToBeingGotten inv1 hd) hd
    obtain ⟨b1, b2, b3, b4⟩ := toBeingGotten_flags inv1 hd
    have hlist3 : (wrapperToAwaitingGet (wrapperToBeingGotten inv1 hd)
        hd).reqsAwaitingGet
        = hd :: (wrapperToBeingGotten inv1 hd).reqsAwaitingGet :=
      toAwaitingGet_awaitList _ hd hne2
    have g1 : (wrapperToAwaitingGet (wrapperToBeingGotten inv1 hd)
        hd).deactivatedNotFlushed = false := by
      rw [k3, b3]
      simp at f1
      exact f1
    have g2 : (wrapperToAwaitingGet (wrapperToBeingGotten inv1 hd)
        hd).deactivated = false := by
      rw [k2, b2]
      rcases Bool.eq_false_or_eq_true inv1.deactivated with h | h
      · exact absurd (Or.inl h) f2
      · exact h
    have g3 : (wrapperToAwaitingGet (wrapperToBeingGotten inv1 hd)
        hd).terminated = false := by
      rw [k1, b1]
      exact ht1
    have g4 : (wrapperToAwaitingGet (wrapperToBeingGotten inv1 hd)
        hd).sendDeviceAvailable = false := by
      rw [k4, b4]
      simp at f3
      exact f3
    have hsecond : kbdus_inverter_begin_item_get
        (wrapperToAwaitingGet (wrapperToBeingGotten inv1 hd) hd)
        = (wrapperToBeingGotten
            (wrapperToAwaitingGet (wrapperToBeingGotten inv1 hd) hd) hd,
           some (ItemRef.slot hd)) := by
      simp [kbdus_inverter_begin_item_get, g1, g2, g3, g4, hlist3]
    rw [hsecond]
    have hlen3 : (wrapperToAwaitingGet (wrapperToBeingGotten inv1 hd)
        hd).reqsAll.length = inv1.reqsAll.length := by
      rw [toAwaitingGet_length, toBeingGotten_length]
    have hitem3 : (getWrapper (wrapperToAwaitingGet
        (wrapperToBeingGotten inv1 hd) hd) hd).item
        = (getWrapper inv1 hd).item := by
      rw [getWrapper_toAwaitingGet]
      rw [toBeingGotten_length]
      simp [hlt1, hitem2]
    have hfinal : (getWrapper (wrapperToBeingGotten
        (wrapperToAwaitingGet (wrapperToBeingGotten inv1 hd) hd) hd)
        hd).item = (getWrapper inv1 hd).item := by
      rw [getWrapper_toBeingGotten, hlen3]
      simp [hlt1, hitem3]
    exact ⟨rfl, hfinal, by rw [hfinal]⟩

/-- Witness for C8 on the concrete run: submit a read to a fresh one-slot
inverter, get it (slot 0), abort the get; the next `begin_get` returns
slot 0 again. -/
theorem c8_submit_get_abort_get_witness :
    ((getWrapper invBG 0).state = ReqState.beingGotten
      ∧ (getWrapper invBG 0).item.type.isPseudo = false)
    ∧ (kbdus_inverter_begin_item_get
        (kbdus_inverter_abort_item_get invBG (ItemRef.slot 0)).1).2
      = some (ItemRef.slot 0) :=
  ⟨by decide,
   (c8_submit_get_abort_get (kbdus_inverter_create cfg1) 3 ItemType.read
      invSub invBG pduSlot0 0 0 (by decide) (by decide) (by decide)
      (by decide)).1⟩

/-- Claim C10: handle index 0 — carried by all three pseudo-items and
written into a request's private data whenever `submit` fails — can never
address a slot: the 1-based lookup computes `0 - 1` in unsigned 16-bit
arithmetic, yielding 65535, which is out of range for any valid
`num_reqs` (at most 65535), so `begin_complete(0, seqnum)` returns
`EINVAL` and leaves the inverter unchanged. -/
theorem c10_pseudo_handle_rejected (inv : Inverter) (seqnum : Nat)
    (h : inv.numReqs ≤ 65535) :
    handleIndexToWrapper inv 0 = none
    ∧ kbdus_inverter_begin_item_completion inv 0 seqnum
        = (inv, BeginCompletionResult.invalidArg)
    ∧ devAvailableItem.handle_index = 0
    ∧ terminatePseudoItem.handle_index = 0
    ∧ flushTerminatePseudoItem.handle_index = 0
    ∧ (∀ req t inv1 pdu r,
        kbdus_inverter_submit_request inv req t = some (inv1, pdu, r) →
        r ≠ 0 → pdu.handle_index = 0) := by
  have hw : handleIndexToWrapper inv 0 = none := by
    simp [handleIndexToWrapper, h]
  refine ⟨hw, ?_, rfl, rfl, rfl, ?_⟩
  · simp [kbdus_inverter_begin_item_completion, hw]
  · intro req t inv1 pdu r hsub hr
    by_cases ht : inv.terminated = true
    · simp only [kbdus_inverter_submit_request, ht, if_true,
        Option.some.injEq, Prod.mk.injEq] at hsub
      rw [← hsub.2.1]
    · by_cases hs : kbdus_inverter_req_is_supported inv t = true
      · cases hf : inv.reqsFree with
        | nil => simp [kbdus_inverter_submit_request, ht, hs, hf] at hsub
        | cons hd tl =>
          exfalso
          apply hr
          simp only [kbdus_inverter_submit_request, ht, hs, hf] at hsub
          simp at hsub
          exact hsub.2.2.symm
      · simp only [kbdus_inverter_submit_request, ht, hs] at hsub
        simp at hsub
        rw [← hsub.2.1]

/-- Witness for C10 on the freshly created one-slot inverter
(`num_reqs = 1 ≤ 65535`) with an arbitrary seqnum. -/
theorem c10_pseudo_handle_rejected_witness :
    (kbdus_inverter_create cfg1).numReqs ≤ 65535
    ∧ kbdus_inverter_begin_item_completion (kbdus_inverter_create cfg1) 0 5
        = (kbdus_inverter_create cfg1, BeginCompletionResult.invalidArg) :=
  ⟨by decide,
   (c10_pseudo_handle_rejected (kbdus_inverter_create cfg1) 5
      (by decide)).2.1⟩

end Kbdus
